import Mathlib

/-!
JsErrorHandler: a shallow embedding of
`packages/react-native/ReactCommon/jserrorhandler/JsErrorHandler.cpp`.

* `std::string` is `String`; `std::optional` is `Option`.
* A `jsi::Value` is the data type `Value`; property reads and writes on a
  `jsi::Object` act on its list of properties.
* The object state (`_hasHandledFatalError`, `_isRuntimeReady`,
  `_errorListeners`) and the function-local static `exceptionId` are passed
  explicitly in `State`.
* A thrown `jsi::JSError` is the `raised` field of an `Outcome`; the state
  reached before the throw is kept.
* Calls that leave the class (the JS pipeline, the log, the listeners, the
  `_onJsError` callback) are recorded, in order, as `Event`s; the value of
  `_hasHandledFatalError` at the moment of each `_onJsError` call is recorded
  in the `Outcome`.
* The exceptions are `jsi::JSError`s, the type that `handleError` catches.
* The 32-bit `int` of `nextExceptionId` is an integer in the range of `int`;
  an increment past the largest value wraps around (`wrapInt32`).
-/

namespace facebook.react

/-! ## Values of the JS runtime -/

/-- A `jsi::Value` holding plain data: undefined, null, a boolean, a number, a
string or a plain object given by its properties in insertion order. A number
is carried as the text that the runtime's `toString` gives for it, so that no
floating point arithmetic is needed. -/
inductive Value where
  | undefined
  | null
  | bool (b : Bool)
  | number (text : String)
  | string (s : String)
  | object (props : List (String × Value))

/-- The `jsi::Value::isNull` test. -/
def Value.isNull : Value → Bool
  | .null => true
  | _ => false

/-- The `jsi::Value::isUndefined` test. -/
def Value.isUndefined : Value → Bool
  | .undefined => true
  | _ => false

/-- The `jsi::Value::isString` test. -/
def Value.isString : Value → Bool
  | .string _ => true
  | _ => false

/-- The `jsi::Value::isObject` test. -/
def Value.isObject : Value → Bool
  | .object _ => true
  | _ => false

/-- The `jsi::Value::toString` conversion followed by `utf8`: the ECMAScript
`ToString` of a plain data value. -/
def Value.toString : Value → String
  | .undefined => "undefined"
  | .null => "null"
  | .bool true => "true"
  | .bool false => "false"
  | .number text => text
  | .string s => s
  | .object _ => "[object Object]"

/-- The `jsi::Object::getProperty` read: the value bound to `key`, or
`undefined` when the object has no such property. -/
def getProperty (obj : List (String × Value)) (key : String) : Value :=
  match obj.lookup key with
  | some v => v
  | none => Value.undefined

/-- The `jsi::Object::setProperty` write: an existing binding of `key` is
replaced in place, a new one is added at the end. -/
def setProperty (obj : List (String × Value)) (key : String) (v : Value) :
    List (String × Value) :=
  if obj.any (fun p => p.1 == key) then
    obj.map (fun p => if p.1 == key then (key, v) else p)
  else
    obj ++ [(key, v)]

/-- Source line 27: `isLooselyNull`. -/
def isLooselyNull (value : Value) : Bool :=
  value.isNull || value.isUndefined

/-- Source line 31: `isEmptyString`, strict equality with the empty string. -/
def isEmptyString (value : Value) : Bool :=
  match value with
  | .string s => s == ""
  | _ => false

/-- Source line 36: `stringifyToCpp`. -/
def stringifyToCpp (value : Value) : String :=
  value.toString

/-- Source line 40: `isTruthy`, the global `Boolean` function applied to the
value. -/
def isTruthy (value : Value) : Bool :=
  match value with
  | .undefined => false
  | .null => false
  | .bool b => b
  | .number text => !(text == "0" || text == "NaN")
  | .string s => !(s == "")
  | .object _ => true

/-- Source line 45: `objectAssign`, the global `Object.assign(target, value)`
on plain objects: every property of `value` is set on `target`, in order. -/
def objectAssign (target value : List (String × Value)) : List (String × Value) :=
  value.foldl (fun t p => setProperty t p.1 p.2) target

/-- The `std::string::starts_with` test. -/
def starts_with (s p : String) : Bool :=
  p.data.isPrefixOf s.data

/-! ## Records -/

/-- The `JsErrorHandler::ParsedError::StackFrame` record. -/
structure StackFrame where
  file : Option String
  methodName : String
  lineNumber : Option Nat
  column : Option Nat

/-- The `JsErrorHandler::ParsedError` record. -/
structure ParsedError where
  message : String
  originalMessage : Option String
  name : Option String
  componentStack : Option String
  stack : List StackFrame
  id : Int
  isFatal : Bool
  extraData : List (String × Value)

/-- A `jsi::JSError` whose value is an object: `getMessage()`, `getStack()`
and the properties of `value().getObject(runtime)`. -/
structure JSError where
  message : String
  stack : String
  value : List (String × Value)

/-- The part of a `jsi::Runtime` that the handler consults: whether the global
object has the property `HermesInternal`, and what the JS pipeline does with
an error and its fatal flag (it returns, or it throws a `jsi::JSError`). -/
structure Runtime where
  hasHermesInternal : Bool
  errorUtils : JSError → Bool → Except JSError Unit

/-- The static function `StackTraceParser::parse` of `StackTraceParser.h`,
whose code is not part of the sources: it is taken as a parameter. -/
structure StackTraceParser where
  parse : Bool → String → List StackFrame

/-- Modelled from the spec: the primary pipeline invocation `handleJSError` of
`cxxreact/ErrorUtils.h`, consumed as `(environment, exception, isFatal) →
success | failure`; its code is not part of the sources, and its behaviour is
that of the runtime it is given. -/
def handleJSError (runtime : Runtime) (error : JSError) (isFatal : Bool) :
    Except JSError Unit :=
  runtime.errorUtils error isFatal

/-- The object handed to every listener (source lines 263-283): the
`ParsedError` converted by `bridging::toJs` and the `isComponentError` flag.
Its `preventDefault` function is the same for every call, so it is not a
field: what a listener does with it is part of the `ListenerResult`. -/
structure ListenerData where
  parsedError : ParsedError
  isComponentError : Bool

/-- What one call of a listener does to the handler: whether it called
`preventDefault`, and whether it threw. -/
structure ListenerResult where
  callsPreventDefault : Bool
  raises : Option JSError

/-- An element of `_errorListeners`. -/
abbrev ErrorListener := ListenerData → ListenerResult

/-- The calls that leave the class, in the order they happen. `constructed`
marks the construction of the `ParsedError` (source line 252), `listener i`
the call of the `i`-th registered listener, `preventDefault i` that this call
ran the `preventDefault` function, `onJsError` the call of `_onJsError`. -/
inductive Event where
  | pipeline (error : JSError) (isFatal : Bool)
  | log (reportingFailure : String) (originalError : String)
  | constructed (parsedError : ParsedError)
  | listener (index : Nat) (data : ListenerData)
  | preventDefault (index : Nat)
  | onJsError (parsedError : ParsedError)

/-- The fields of a `JsErrorHandler` object; the `_onJsError` callback given
to the constructor is observed through `Event.onJsError`. -/
structure JsErrorHandler where
  _hasHandledFatalError : Bool
  _isRuntimeReady : Bool
  _errorListeners : List ErrorListener

/-- The handler together with the static `exceptionId` of `nextExceptionId`. -/
structure State where
  exceptionId : Int
  self : JsErrorHandler

/-- The result of a call: the state it leaves, the calls it made, the
exception it threw, if any, and the value that `_hasHandledFatalError` had at
the moment of each `_onJsError` call made, in order. -/
structure Outcome where
  state : State
  events : List Event
  raised : Option JSError
  latchAtOnJsError : List Bool

/-! ## The functions of the class -/

/-- The value of a 32-bit `int` after an arithmetic result `n`: the integer in
the range of `int` that differs from `n` by a multiple of `2^32`. Overflow of
a signed `int` is undefined in C++; the embedding takes the wrap-around of
two's complement, which is what the increment compiles to. -/
def wrapInt32 (n : Int) : Int :=
  (n + 2147483648) % 4294967296 - 2147483648

/-- Source line 22: `nextExceptionId`; the value returned and the new value of
the static `int exceptionId`. -/
def nextExceptionId (exceptionId : Int) : Int × Int :=
  (exceptionId, wrapInt32 (exceptionId + 1))

/-- Source line 151: the constructor, with `exceptionId` as it is at program
start. -/
def State.init : State :=
  { exceptionId := 0
    self := { _hasHandledFatalError := false, _isRuntimeReady := false,
              _errorListeners := [] } }

/-- Source lines 192-194: the component stack is appended on a new line. -/
def appendComponentStack (message : String) (componentStackValue : Value) : String :=
  if !isLooselyNull componentStackValue then
    message ++ ("\n" ++ stringifyToCpp componentStackValue)
  else
    message

/-- Source lines 197-199: the name, absent when the property is null,
undefined or the empty string. -/
def nameOf (nameValue : Value) : Option String :=
  if isLooselyNull nameValue || isEmptyString nameValue then
    none
  else
    some (stringifyToCpp nameValue)

/-- Source lines 201-203: the name is put in front of the message unless the
message starts with it already. -/
def applyName (name : Option String) (message : String) : String :=
  match name with
  | some n => if !starts_with message (n ++ ": ") then n ++ ": " ++ message else message
  | none => message

/-- Source lines 207-209: the engine is appended. -/
def appendJsEngine (message : String) (jsEngineValue : Value) : String :=
  if !isLooselyNull jsEngineValue then
    message ++ (", js engine: " ++ stringifyToCpp jsEngineValue)
  else
    message

/-- Source lines 189-209: the message before the `EarlyJsError: ` tag. -/
def composeMessage (error : JSError) : String :=
  let message := error.message
  let errorObj := error.value
  let componentStackValue := getProperty errorObj "componentStack"
  let message := appendComponentStack message componentStackValue
  let nameValue := getProperty errorObj "name"
  let name := nameOf nameValue
  let message := applyName name message
  let jsEngineValue := getProperty errorObj "jsEngine"
  appendJsEngine message jsEngineValue

/-- Source lines 211-237: the `extraData` object. -/
def buildExtraData (error : JSError) : List (String × Value) :=
  let errorObj := error.value
  let jsEngineValue := getProperty errorObj "jsEngine"
  let extraDataValue := getProperty errorObj "RN$ErrorExtraDataKey"
  let extraData : List (String × Value) := []
  let extraData :=
    match extraDataValue with
    | .object props => objectAssign extraData props
    | _ => extraData
  let extraData := setProperty extraData "jsEngine" jsEngineValue
  let extraData := setProperty extraData "rawStack" (Value.string error.stack)
  let cause := getProperty errorObj "cause"
  match cause with
  | .object causeObj =>
    let stackSymbols := getProperty causeObj "stackSymbols"
    let extraData := setProperty extraData "stackSymbols" stackSymbols
    let stackReturnAddresses := getProperty causeObj "stackReturnAddresses"
    let extraData := setProperty extraData "stackReturnAddresses" stackReturnAddresses
    let stackElements := getProperty causeObj "stackElements"
    setProperty extraData "stackElements" stackElements
  | _ => extraData

/-- Source lines 189-261: the `ParsedError` that `emitError` builds, given the
id that `nextExceptionId` returned. -/
def buildParsedError (parser : StackTraceParser) (runtime : Runtime) (error : JSError)
    (isFatal : Bool) (id : Int) : ParsedError :=
  let errorObj := error.value
  let componentStackValue := getProperty errorObj "componentStack"
  let nameValue := getProperty errorObj "name"
  let name := nameOf nameValue
  let message := composeMessage error
  let extraData := buildExtraData error
  let originalMessage := if message = error.message then none else some error.message
  let componentStack :=
    match componentStackValue with
    | .string s => some s
    | _ => none
  let isHermes := runtime.hasHermesInternal
  let stackFrames := parser.parse isHermes error.stack
  { message := "EarlyJsError: " ++ message
    originalMessage := originalMessage
    name := name
    componentStack := componentStack
    stack := stackFrames
    id := id
    isFatal := isFatal
    extraData := extraData }

/-- Source lines 263-283: the object handed to the listeners. -/
def buildListenerData (error : JSError) (parsedError : ParsedError) : ListenerData :=
  { parsedError := parsedError
    isComponentError := isTruthy (getProperty error.value "isComponentError") }

/-- The state of the listener loop: the calls made so far are returned with
the value of `*shouldPreventDefault` and the exception that ended the loop. -/
structure Notified where
  events : List Event
  shouldPreventDefault : Bool
  raised : Option JSError

/-- Source lines 285-287: the listeners from position `index` on are called in
order; a listener that throws ends the loop. -/
def notifyListeners : List ErrorListener → Nat → ListenerData → Bool → Notified
  | [], _, _, shouldPreventDefault =>
    { events := [], shouldPreventDefault := shouldPreventDefault, raised := none }
  | errorListener :: rest, index, data, shouldPreventDefault =>
    let result := errorListener data
    let shouldPreventDefault := shouldPreventDefault || result.callsPreventDefault
    let called :=
      Event.listener index data ::
        (if result.callsPreventDefault then [Event.preventDefault index] else [])
    match result.raises with
    | some e =>
      { events := called, shouldPreventDefault := shouldPreventDefault, raised := some e }
    | none =>
      let later := notifyListeners rest (index + 1) data shouldPreventDefault
      { later with events := called ++ later.events }

/-- The assignment `_hasHandledFatalError = true`. -/
def State.setHandledFatalError (s : State) : State :=
  { s with self := { s.self with _hasHandledFatalError := true } }

/-- Source lines 185-298: `JsErrorHandler::emitError`. -/
def emitError (parser : StackTraceParser) (runtime : Runtime) (s : State) (error : JSError)
    (isFatal : Bool) : Outcome :=
  let next := nextExceptionId s.exceptionId
  let id := next.1
  let s := { s with exceptionId := next.2 }
  let parsedError := buildParsedError parser runtime error isFatal id
  let data := buildListenerData error parsedError
  let notified := notifyListeners s.self._errorListeners 0 data false
  let events := Event.constructed parsedError :: notified.events
  match notified.raised with
  | some e => { state := s, events := events, raised := some e, latchAtOnJsError := [] }
  | none =>
    if notified.shouldPreventDefault then
      { state := s, events := events, raised := none, latchAtOnJsError := [] }
    else
      let s := if isFatal then s.setHandledFatalError else s
      { state := s
        events := events ++ [Event.onJsError parsedError]
        raised := none
        latchAtOnJsError := [s.self._hasHandledFatalError] }

/-- Source lines 159-183: `JsErrorHandler::handleError`. -/
def handleError (parser : StackTraceParser) (runtime : Runtime) (s : State) (error : JSError)
    (isFatal : Bool) : Outcome :=
  if s.self._isRuntimeReady then
    let s := if isFatal then s.setHandledFatalError else s
    match handleJSError runtime error isFatal with
    | .ok _ =>
      { state := s, events := [Event.pipeline error isFatal], raised := none,
        latchAtOnJsError := [] }
    | .error e =>
      let out := emitError parser runtime s error isFatal
      { out with
        events := Event.pipeline error isFatal :: Event.log e.message error.message ::
          out.events }
  else
    emitError parser runtime s error isFatal

/-- Source line 300: `registerErrorListener`. -/
def registerErrorListener (s : State) (errorListener : ErrorListener) : State :=
  { s with self := { s.self with _errorListeners := s.self._errorListeners ++ [errorListener] } }

/-- Source line 305: `hasHandledFatalError`. -/
def hasHandledFatalError (s : State) : Bool :=
  s.self._hasHandledFatalError

/-- Source line 309: `setRuntimeReady`. -/
def setRuntimeReady (s : State) : State :=
  { s with self := { s.self with _isRuntimeReady := true } }

/-- Source line 313: `isRuntimeReady`. -/
def isRuntimeReady (s : State) : Bool :=
  s.self._isRuntimeReady

/-- Source line 317: `notifyOfFatalError`. -/
def notifyOfFatalError (s : State) : State :=
  s.setHandledFatalError

/-! ## Sequences of calls -/

/-- One call of a state-changing member function, with its arguments. -/
inductive Op where
  | handleError (runtime : Runtime) (error : JSError) (isFatal : Bool)
  | emitError (runtime : Runtime) (error : JSError) (isFatal : Bool)
  | registerErrorListener (errorListener : ErrorListener)
  | setRuntimeReady
  | notifyOfFatalError

/-- The outcome of one call. -/
def step (parser : StackTraceParser) (s : State) : Op → Outcome
  | .handleError runtime error isFatal => handleError parser runtime s error isFatal
  | .emitError runtime error isFatal => emitError parser runtime s error isFatal
  | .registerErrorListener errorListener =>
    { state := registerErrorListener s errorListener, events := [], raised := none,
      latchAtOnJsError := [] }
  | .setRuntimeReady =>
    { state := setRuntimeReady s, events := [], raised := none, latchAtOnJsError := [] }
  | .notifyOfFatalError =>
    { state := notifyOfFatalError s, events := [], raised := none, latchAtOnJsError := [] }

/-- The calls of a sequence made one after the other; a call that throws
leaves its state to the next one. The final state and all the events. -/
def run (parser : StackTraceParser) : State → List Op → State × List Event
  | s, [] => (s, [])
  | s, op :: ops =>
    let out := step parser s op
    let later := run parser out.state ops
    (later.1, out.events ++ later.2)

/-! ## Observations on a list of events -/

/-- The ids of the `ParsedError`s constructed, in order. -/
def constructedIds : List Event → List Int
  | [] => []
  | .constructed parsedError :: rest => parsedError.id :: constructedIds rest
  | _ :: rest => constructedIds rest

/-- The `ParsedError`s constructed, in order. -/
def constructedErrors : List Event → List ParsedError
  | [] => []
  | .constructed parsedError :: rest => parsedError :: constructedErrors rest
  | _ :: rest => constructedErrors rest

/-- The listener calls made, in order: the position of the listener in
`_errorListeners` and the object it was given. -/
def listenerCalls : List Event → List (Nat × ListenerData)
  | [] => []
  | .listener index data :: rest => (index, data) :: listenerCalls rest
  | _ :: rest => listenerCalls rest

/-- The arguments of the `_onJsError` calls made, in order. -/
def terminalCalls : List Event → List ParsedError
  | [] => []
  | .onJsError parsedError :: rest => parsedError :: terminalCalls rest
  | _ :: rest => terminalCalls rest

/-- The number of `preventDefault` calls made. -/
def preventDefaultCalls : List Event → Nat
  | [] => 0
  | .preventDefault _ :: rest => preventDefaultCalls rest + 1
  | _ :: rest => preventDefaultCalls rest

/-- The arguments of the `handleJSError` calls made, in order. -/
def pipelineCalls : List Event → List (JSError × Bool)
  | [] => []
  | .pipeline error isFatal :: rest => (error, isFatal) :: pipelineCalls rest
  | _ :: rest => pipelineCalls rest

/-- Whether a call made in state `s` executes `emitError`: a direct call does,
and `handleError` does when the runtime is not ready or the JS pipeline
throws. -/
def reachesEmit (s : State) : Op → Bool
  | .emitError _ _ _ => true
  | .handleError runtime error isFatal =>
    !s.self._isRuntimeReady ||
      (match handleJSError runtime error isFatal with
       | .ok _ => false
       | .error _ => true)
  | _ => false

/-- The number of `emitError` executions in a sequence of calls. -/
def emitExecutions (parser : StackTraceParser) : State → List Op → Nat
  | _, [] => 0
  | s, op :: ops =>
    (if reachesEmit s op then 1 else 0) + emitExecutions parser (step parser s op).state ops

/-- The object that `emitError` hands to the listeners when called in state
`s`: the `ParsedError` built with the id that `nextExceptionId` returns. -/
def emitData (parser : StackTraceParser) (runtime : Runtime) (s : State) (error : JSError)
    (isFatal : Bool) : ListenerData :=
  buildListenerData error
    (buildParsedError parser runtime error isFatal (nextExceptionId s.exceptionId).1)

/-! ## Data for the worked cases -/

/-- A parser that finds no frame. -/
def sampleParser : StackTraceParser :=
  { parse := fun _ _ => [] }

/-- A runtime whose JS pipeline returns. -/
def sampleRuntime : Runtime :=
  { hasHermesInternal := false, errorUtils := fun _ _ => Except.ok () }

/-- The error that a failing JS pipeline throws in the worked cases. -/
def reportingFailure : JSError :=
  { message := "ErrorUtils is not set up properly", stack := "", value := [] }

/-- A runtime whose JS pipeline throws. -/
def failingRuntime : Runtime :=
  { hasHermesInternal := false, errorUtils := fun _ _ => Except.error reportingFailure }

/-- An error with the message `boom` and no property. -/
def sampleError : JSError :=
  { message := "boom", stack := "", value := [] }

/-- A listener that does nothing. -/
def noopListener : ErrorListener :=
  fun _ => { callsPreventDefault := false, raises := none }

/-- A listener that calls `preventDefault`. -/
def preventingListener : ErrorListener :=
  fun _ => { callsPreventDefault := true, raises := none }

/-- A listener that throws. -/
def raisingListener : ErrorListener :=
  fun _ => { callsPreventDefault := false, raises := some reportingFailure }

/-- A sequence of `n` direct, non-fatal `emitError` calls. -/
def manyReports (n : Nat) : List Op :=
  List.replicate n (Op.emitError sampleRuntime sampleError false)

/-- A fresh handler with the given listeners registered. -/
def stateWith (listeners : List ErrorListener) : State :=
  listeners.foldl registerErrorListener State.init

/-- The `jsi::Object::hasProperty` test. -/
def hasProperty (obj : List (String × Value)) (key : String) : Bool :=
  obj.any (fun p => p.1 == key)

/-! ## The message in the words of the specification -/

/-- An error whose cause is an object with `stackSymbols` only, and whose
reserved extra-data property binds `stackElements`, `jsEngine`, `rawStack`
and a key of its own. -/
def causeError : JSError :=
  { message := "boom"
    stack := "at f (a.js:1:1)"
    value :=
      [("jsEngine", Value.string "hermes"),
       ("cause", Value.object [("stackSymbols", Value.string "symbols")]),
       ("RN$ErrorExtraDataKey",
        Value.object
          [("stackElements", Value.string "old"),
           ("jsEngine", Value.string "other"),
           ("rawStack", Value.string "other stack"),
           ("detail", Value.number "7")])] }

/-- An error without a cause whose reserved extra-data property binds
`stackElements`. -/
def plainError : JSError :=
  { message := "boom"
    stack := ""
    value := [("RN$ErrorExtraDataKey", Value.object [("stackElements", Value.string "old")])] }

/-- An error whose component stack is a number. -/
def numberStackError : JSError :=
  { message := "boom"
    stack := ""
    value := [("componentStack", Value.number "42")] }

/-- An error whose component stack is a string. -/
def stringStackError : JSError :=
  { message := "boom"
    stack := ""
    value := [("componentStack", Value.string "in App")] }

/-! ## The steps of the `extraData` construction -/

/-- Source lines 214-217: the fresh object after the properties of the
reserved extra-data property have been copied into it. -/
def copiedExtraData (error : JSError) : List (String × Value) :=
  match getProperty error.value "RN$ErrorExtraDataKey" with
  | .object props => objectAssign [] props
  | _ => []

/-- Source lines 214-220: the `extraData` object before the cause is looked
at. -/
def extraDataBeforeCause (error : JSError) : List (String × Value) :=
  setProperty
    (setProperty (copiedExtraData error) "jsEngine" (getProperty error.value "jsEngine"))
    "rawStack" (Value.string error.stack)

/-! ## Lemmas on the listener loop -/

theorem notifyListeners_constructed (ls : List ErrorListener) (i : Nat) (data : ListenerData)
    (f : Bool) : constructedErrors (notifyListeners ls i data f).events = [] := by
  induction ls generalizing i f with
  | nil => rfl
  | cons l rest ih =>
    cases hr : (l data).raises <;> cases hp : (l data).callsPreventDefault <;>
      simp [notifyListeners, hr, hp, constructedErrors, ih]

theorem notifyListeners_terminal (ls : List ErrorListener) (i : Nat) (data : ListenerData)
    (f : Bool) : terminalCalls (notifyListeners ls i data f).events = [] := by
  induction ls generalizing i f with
  | nil => rfl
  | cons l rest ih =>
    cases hr : (l data).raises <;> cases hp : (l data).callsPreventDefault <;>
      simp [notifyListeners, hr, hp, terminalCalls, ih]

theorem notifyListeners_pipeline (ls : List ErrorListener) (i : Nat) (data : ListenerData)
    (f : Bool) : pipelineCalls (notifyListeners ls i data f).events = [] := by
  induction ls generalizing i f with
  | nil => rfl
  | cons l rest ih =>
    cases hr : (l data).raises <;> cases hp : (l data).callsPreventDefault <;>
      simp [notifyListeners, hr, hp, pipelineCalls, ih]

/-- The flag after the loop is set exactly when it was set before or a
listener called `preventDefault`. -/
theorem notifyListeners_flag (ls : List ErrorListener) (i : Nat) (data : ListenerData)
    (f : Bool) :
    (notifyListeners ls i data f).shouldPreventDefault =
      (f || decide (0 < preventDefaultCalls (notifyListeners ls i data f).events)) := by
  induction ls generalizing i f with
  | nil => simp [notifyListeners, preventDefaultCalls]
  | cons l rest ih =>
    cases hr : (l data).raises <;> cases hp : (l data).callsPreventDefault <;>
      simp [notifyListeners, hr, hp, preventDefaultCalls, ih]

/-- When no listener throws, the loop calls every listener once, in order. -/
theorem notifyListeners_all (ls : List ErrorListener) (i : Nat) (data : ListenerData)
    (f : Bool) (h : ∀ l ∈ ls, (l data).raises = none) :
    (notifyListeners ls i data f).raised = none ∧
    listenerCalls (notifyListeners ls i data f).events =
      (List.range ls.length).map (fun k => (i + k, data)) ∧
    (notifyListeners ls i data f).shouldPreventDefault =
      (f || ls.any (fun l => (l data).callsPreventDefault)) := by
  induction ls generalizing i f with
  | nil => simp [notifyListeners, listenerCalls]
  | cons l rest ih =>
    have hl : (l data).raises = none := h l (List.mem_cons_self _ _)
    have hrest : ∀ l ∈ rest, (l data).raises = none :=
      fun l hmem => h l (List.mem_cons_of_mem _ hmem)
    obtain ⟨h1, h2, h3⟩ := ih (i + 1) (f || (l data).callsPreventDefault) hrest
    have hshift : (fun k => (i + 1 + k, data)) = (fun k => (i + k, data)) ∘ Nat.succ := by
      funext k
      simp only [Function.comp, Nat.succ_eq_add_one]
      congr 1
      omega
    refine ⟨?_, ?_, ?_⟩
    · simp [notifyListeners, hl, h1]
    · rw [List.length_cons, List.range_succ_eq_map, List.map_cons, List.map_map, ← hshift, ← h2]
      cases hp : (l data).callsPreventDefault
      · simp [notifyListeners, hl, hp, listenerCalls]
      · simp [notifyListeners, hl, hp, listenerCalls]
    · simp [notifyListeners, hl, h3, Bool.or_assoc]

/-! ## Lemmas on the observations -/

theorem constructedErrors_append (a b : List Event) :
    constructedErrors (a ++ b) = constructedErrors a ++ constructedErrors b := by
  induction a with
  | nil => rfl
  | cons e rest ih => cases e <;> simp [constructedErrors, ih]

theorem constructedIds_eq (a : List Event) :
    constructedIds a = (constructedErrors a).map (fun pe => pe.id) := by
  induction a with
  | nil => rfl
  | cons e rest ih => cases e <;> simp [constructedErrors, constructedIds, ih]

theorem terminalCalls_append (a b : List Event) :
    terminalCalls (a ++ b) = terminalCalls a ++ terminalCalls b := by
  induction a with
  | nil => rfl
  | cons e rest ih => cases e <;> simp [terminalCalls, ih]

theorem listenerCalls_append (a b : List Event) :
    listenerCalls (a ++ b) = listenerCalls a ++ listenerCalls b := by
  induction a with
  | nil => rfl
  | cons e rest ih => cases e <;> simp [listenerCalls, ih]

theorem pipelineCalls_append (a b : List Event) :
    pipelineCalls (a ++ b) = pipelineCalls a ++ pipelineCalls b := by
  induction a with
  | nil => rfl
  | cons e rest ih => cases e <;> simp [pipelineCalls, ih]

theorem preventDefaultCalls_append (a b : List Event) :
    preventDefaultCalls (a ++ b) = preventDefaultCalls a + preventDefaultCalls b := by
  induction a with
  | nil => simp [preventDefaultCalls]
  | cons e rest ih =>
    cases e <;> simp [preventDefaultCalls, ih]
    omega

/-! ## Lemmas on `emitError` -/

/-- The result of the listener loop that `emitError` runs in state `s`. -/
theorem emitError_unfold (parser : StackTraceParser) (runtime : Runtime) (s : State)
    (error : JSError) (isFatal : Bool) :
    emitError parser runtime s error isFatal =
      (match (notifyListeners s.self._errorListeners 0
          (emitData parser runtime s error isFatal) false).raised with
      | some e =>
        { state := { s with exceptionId := wrapInt32 (s.exceptionId + 1) }
          events := Event.constructed (emitData parser runtime s error isFatal).parsedError ::
            (notifyListeners s.self._errorListeners 0
              (emitData parser runtime s error isFatal) false).events
          raised := some e
          latchAtOnJsError := [] }
      | none =>
        if (notifyListeners s.self._errorListeners 0
            (emitData parser runtime s error isFatal) false).shouldPreventDefault then
          { state := { s with exceptionId := wrapInt32 (s.exceptionId + 1) }
            events := Event.constructed (emitData parser runtime s error isFatal).parsedError ::
              (notifyListeners s.self._errorListeners 0
                (emitData parser runtime s error isFatal) false).events
            raised := none
            latchAtOnJsError := [] }
        else
          { state :=
              if isFatal then
                State.setHandledFatalError
                  { s with exceptionId := wrapInt32 (s.exceptionId + 1) }
              else { s with exceptionId := wrapInt32 (s.exceptionId + 1) }
            events := Event.constructed (emitData parser runtime s error isFatal).parsedError ::
              (notifyListeners s.self._errorListeners 0
                (emitData parser runtime s error isFatal) false).events ++
              [Event.onJsError (emitData parser runtime s error isFatal).parsedError]
            raised := none
            latchAtOnJsError :=
              [(if isFatal then
                  State.setHandledFatalError
                    { s with exceptionId := wrapInt32 (s.exceptionId + 1) }
                else
                  { s with exceptionId := wrapInt32 (s.exceptionId + 1) }).self._hasHandledFatalError] }) := by
  rfl

theorem emitError_exceptionId (parser : StackTraceParser) (runtime : Runtime) (s : State)
    (error : JSError) (isFatal : Bool) :
    (emitError parser runtime s error isFatal).state.exceptionId =
      wrapInt32 (s.exceptionId + 1) := by
  rw [emitError_unfold]
  split
  · rfl
  · split
    · rfl
    · cases isFatal <;> rfl

theorem emitError_listeners (parser : StackTraceParser) (runtime : Runtime) (s : State)
    (error : JSError) (isFatal : Bool) :
    (emitError parser runtime s error isFatal).state.self._errorListeners =
      s.self._errorListeners := by
  rw [emitError_unfold]
  split
  · rfl
  · split
    · rfl
    · cases isFatal <;> rfl

theorem emitError_ready (parser : StackTraceParser) (runtime : Runtime) (s : State)
    (error : JSError) (isFatal : Bool) :
    (emitError parser runtime s error isFatal).state.self._isRuntimeReady =
      s.self._isRuntimeReady := by
  rw [emitError_unfold]
  split
  · rfl
  · split
    · rfl
    · cases isFatal <;> rfl

theorem emitError_raised (parser : StackTraceParser) (runtime : Runtime) (s : State)
    (error : JSError) (isFatal : Bool) :
    (emitError parser runtime s error isFatal).raised =
      (notifyListeners s.self._errorListeners 0
        (emitData parser runtime s error isFatal) false).raised := by
  rw [emitError_unfold]
  split
  · next e h => rw [h]
  · next h =>
    rw [h]
    split <;> rfl

theorem emitError_constructed (parser : StackTraceParser) (runtime : Runtime) (s : State)
    (error : JSError) (isFatal : Bool) :
    constructedErrors (emitError parser runtime s error isFatal).events =
      [(emitData parser runtime s error isFatal).parsedError] := by
  rw [emitError_unfold]
  split
  · simp [constructedErrors, notifyListeners_constructed]
  · split
    · simp [constructedErrors, notifyListeners_constructed]
    · simp [constructedErrors, constructedErrors_append, notifyListeners_constructed]

theorem emitError_pipeline (parser : StackTraceParser) (runtime : Runtime) (s : State)
    (error : JSError) (isFatal : Bool) :
    pipelineCalls (emitError parser runtime s error isFatal).events = [] := by
  rw [emitError_unfold]
  split
  · simp [pipelineCalls, notifyListeners_pipeline]
  · split
    · simp [pipelineCalls, notifyListeners_pipeline]
    · simp [pipelineCalls, pipelineCalls_append, notifyListeners_pipeline]

theorem emitError_listenerCalls (parser : StackTraceParser) (runtime : Runtime) (s : State)
    (error : JSError) (isFatal : Bool) :
    listenerCalls (emitError parser runtime s error isFatal).events =
      listenerCalls (notifyListeners s.self._errorListeners 0
        (emitData parser runtime s error isFatal) false).events := by
  rw [emitError_unfold]
  split
  · simp [listenerCalls]
  · split
    · simp [listenerCalls]
    · simp [listenerCalls, listenerCalls_append]

theorem emitError_preventDefaultCalls (parser : StackTraceParser) (runtime : Runtime)
    (s : State) (error : JSError) (isFatal : Bool) :
    preventDefaultCalls (emitError parser runtime s error isFatal).events =
      preventDefaultCalls (notifyListeners s.self._errorListeners 0
        (emitData parser runtime s error isFatal) false).events := by
  rw [emitError_unfold]
  split
  · simp [preventDefaultCalls]
  · split
    · simp [preventDefaultCalls]
    · simp [preventDefaultCalls, preventDefaultCalls_append]

/-- The terminal callback is called, once, exactly when the loop ended without
an exception and without a `preventDefault` call. -/
theorem emitError_terminal (parser : StackTraceParser) (runtime : Runtime) (s : State)
    (error : JSError) (isFatal : Bool) :
    terminalCalls (emitError parser runtime s error isFatal).events =
      if (emitError parser runtime s error isFatal).raised.isNone = true ∧
          preventDefaultCalls (emitError parser runtime s error isFatal).events = 0 then
        [(emitData parser runtime s error isFatal).parsedError]
      else [] := by
  rw [emitError_raised, emitError_preventDefaultCalls]
  rw [emitError_unfold]
  have hflag := notifyListeners_flag s.self._errorListeners 0
    (emitData parser runtime s error isFatal) false
  split
  · next e h => simp [terminalCalls, notifyListeners_terminal, h]
  · next h =>
    split
    · next hp =>
      rw [hp] at hflag
      have : 0 < preventDefaultCalls (notifyListeners s.self._errorListeners 0
          (emitData parser runtime s error isFatal) false).events := by simpa using hflag.symm
      have hne : ¬ preventDefaultCalls (notifyListeners s.self._errorListeners 0
          (emitData parser runtime s error isFatal) false).events = 0 := by omega
      simp [terminalCalls, notifyListeners_terminal, hne]
    · next hp =>
      have hp2 : (notifyListeners s.self._errorListeners 0
          (emitData parser runtime s error isFatal) false).shouldPreventDefault = false := by
        simpa using hp
      rw [hp2] at hflag
      have hz : preventDefaultCalls (notifyListeners s.self._errorListeners 0
          (emitData parser runtime s error isFatal) false).events = 0 := by
        simpa using hflag.symm
      simp [terminalCalls, terminalCalls_append, notifyListeners_terminal, hz, h]

/-- The latch after `emitError`: set before, or set by a fatal call that
reached the terminal callback. -/
theorem emitError_latch (parser : StackTraceParser) (runtime : Runtime) (s : State)
    (error : JSError) (isFatal : Bool) :
    hasHandledFatalError (emitError parser runtime s error isFatal).state =
      (hasHandledFatalError s ||
        (isFatal && (emitError parser runtime s error isFatal).raised.isNone &&
          decide (preventDefaultCalls (emitError parser runtime s error isFatal).events = 0))) := by
  rw [emitError_raised, emitError_preventDefaultCalls]
  rw [emitError_unfold]
  have hflag := notifyListeners_flag s.self._errorListeners 0
    (emitData parser runtime s error isFatal) false
  split
  · next e h => simp [hasHandledFatalError, h]
  · next h =>
    split
    · next hp =>
      rw [hp] at hflag
      have : 0 < preventDefaultCalls (notifyListeners s.self._errorListeners 0
          (emitData parser runtime s error isFatal) false).events := by simpa using hflag.symm
      have hne : ¬ preventDefaultCalls (notifyListeners s.self._errorListeners 0
          (emitData parser runtime s error isFatal) false).events = 0 := by omega
      simp [hasHandledFatalError, hne]
    · next hp =>
      have hp2 : (notifyListeners s.self._errorListeners 0
          (emitData parser runtime s error isFatal) false).shouldPreventDefault = false := by
        simpa using hp
      rw [hp2] at hflag
      have hz : preventDefaultCalls (notifyListeners s.self._errorListeners 0
          (emitData parser runtime s error isFatal) false).events = 0 := by
        simpa using hflag.symm
      cases isFatal <;> simp [hasHandledFatalError, State.setHandledFatalError, hz, h]

/-- The latch at the moment of the terminal callback: the callback is called
exactly when the loop ended without an exception and without a
`preventDefault` call, and the latch is then set if it was set before the
call or the call is fatal. -/
theorem emitError_latchAtOnJsError (parser : StackTraceParser) (runtime : Runtime)
    (s : State) (error : JSError) (isFatal : Bool) :
    (emitError parser runtime s error isFatal).latchAtOnJsError =
      if (emitError parser runtime s error isFatal).raised.isNone = true ∧
          preventDefaultCalls (emitError parser runtime s error isFatal).events = 0 then
        [hasHandledFatalError s || isFatal]
      else [] := by
  rw [emitError_raised, emitError_preventDefaultCalls]
  rw [emitError_unfold]
  have hflag := notifyListeners_flag s.self._errorListeners 0
    (emitData parser runtime s error isFatal) false
  split
  · next e h => simp [h]
  · next h =>
    split
    · next hp =>
      rw [hp] at hflag
      have : 0 < preventDefaultCalls (notifyListeners s.self._errorListeners 0
          (emitData parser runtime s error isFatal) false).events := by simpa using hflag.symm
      have hne : ¬ preventDefaultCalls (notifyListeners s.self._errorListeners 0
          (emitData parser runtime s error isFatal) false).events = 0 := by omega
      simp [hne]
    · next hp =>
      have hp2 : (notifyListeners s.self._errorListeners 0
          (emitData parser runtime s error isFatal) false).shouldPreventDefault = false := by
        simpa using hp
      rw [hp2] at hflag
      have hz : preventDefaultCalls (notifyListeners s.self._errorListeners 0
          (emitData parser runtime s error isFatal) false).events = 0 := by
        simpa using hflag.symm
      cases isFatal <;> simp [hasHandledFatalError, State.setHandledFatalError, hz, h]

/-- The calls and the exception of `emitError` depend on the state only
through the id counter and the registered listeners. -/
theorem emitError_congr (parser : StackTraceParser) (runtime : Runtime) (s t : State)
    (error : JSError) (isFatal : Bool) (hid : t.exceptionId = s.exceptionId)
    (hls : t.self._errorListeners = s.self._errorListeners) :
    (emitError parser runtime t error isFatal).events =
      (emitError parser runtime s error isFatal).events ∧
    (emitError parser runtime t error isFatal).raised =
      (emitError parser runtime s error isFatal).raised := by
  have hdata : emitData parser runtime t error isFatal = emitData parser runtime s error isFatal := by
    simp [emitData, hid]
  rw [emitError_unfold, emitError_unfold, hdata, hls]
  split
  · exact ⟨rfl, rfl⟩
  · split
    · exact ⟨rfl, rfl⟩
    · exact ⟨rfl, rfl⟩

/-! ## Lemmas on `handleError` -/

theorem handleError_not_ready (parser : StackTraceParser) (runtime : Runtime) (s : State)
    (error : JSError) (isFatal : Bool) (h : isRuntimeReady s = false) :
    handleError parser runtime s error isFatal = emitError parser runtime s error isFatal := by
  unfold isRuntimeReady at h
  simp [handleError, h]

theorem handleError_ok (parser : StackTraceParser) (runtime : Runtime) (s : State)
    (error : JSError) (isFatal : Bool) (h : isRuntimeReady s = true)
    (hok : handleJSError runtime error isFatal = Except.ok ()) :
    handleError parser runtime s error isFatal =
      { state := if isFatal then s.setHandledFatalError else s
        events := [Event.pipeline error isFatal]
        raised := none
        latchAtOnJsError := [] } := by
  unfold isRuntimeReady at h
  simp [handleError, h, hok]

theorem handleError_error (parser : StackTraceParser) (runtime : Runtime) (s : State)
    (error : JSError) (isFatal : Bool) (e : JSError) (h : isRuntimeReady s = true)
    (herr : handleJSError runtime error isFatal = Except.error e) :
    handleError parser runtime s error isFatal =
      { state :=
          (emitError parser runtime (if isFatal then s.setHandledFatalError else s)
            error isFatal).state
        events := Event.pipeline error isFatal :: Event.log e.message error.message ::
          (emitError parser runtime (if isFatal then s.setHandledFatalError else s)
            error isFatal).events
        raised :=
          (emitError parser runtime (if isFatal then s.setHandledFatalError else s)
            error isFatal).raised
        latchAtOnJsError :=
          (emitError parser runtime (if isFatal then s.setHandledFatalError else s)
            error isFatal).latchAtOnJsError } := by
  unfold isRuntimeReady at h
  simp [handleError, h, herr]

/-- The outcome of the JS pipeline is a return or an exception. -/
theorem handleJSError_cases (runtime : Runtime) (error : JSError) (isFatal : Bool) :
    handleJSError runtime error isFatal = Except.ok () ∨
      ∃ e, handleJSError runtime error isFatal = Except.error e := by
  cases h : handleJSError runtime error isFatal with
  | ok u => exact Or.inl rfl
  | error e => exact Or.inr ⟨e, rfl⟩

theorem setHandledFatalError_exceptionId (s : State) (b : Bool) :
    (if b then s.setHandledFatalError else s).exceptionId = s.exceptionId := by
  cases b <;> rfl

theorem setHandledFatalError_listeners (s : State) (b : Bool) :
    (if b then s.setHandledFatalError else s).self._errorListeners =
      s.self._errorListeners := by
  cases b <;> rfl

theorem setHandledFatalError_mono (s : State) (b : Bool)
    (h : hasHandledFatalError s = true) :
    hasHandledFatalError (if b then s.setHandledFatalError else s) = true := by
  cases b
  · exact h
  · rfl

/-- No call resets the latch. -/
theorem step_latch (parser : StackTraceParser) (s : State) (op : Op)
    (h : hasHandledFatalError s = true) :
    hasHandledFatalError (step parser s op).state = true := by
  cases op with
  | handleError runtime error isFatal =>
    simp only [step]
    cases hr : isRuntimeReady s with
    | false =>
      rw [handleError_not_ready _ _ _ _ _ hr, emitError_latch, h]
      rfl
    | true =>
      rcases handleJSError_cases runtime error isFatal with hok | ⟨e, herr⟩
      · rw [handleError_ok _ _ _ _ _ hr hok]
        exact setHandledFatalError_mono s isFatal h
      · rw [handleError_error _ _ _ _ _ e hr herr]
        simp only []
        rw [emitError_latch, setHandledFatalError_mono s isFatal h]
        rfl
  | emitError runtime error isFatal =>
    simp only [step]
    rw [emitError_latch, h]
    rfl
  | registerErrorListener l => exact h
  | setRuntimeReady => exact h
  | notifyOfFatalError => rfl

/-- An increment below the largest `int` is the increment of the integers. -/
theorem wrapInt32_succ (c : Int) (h1 : -2147483648 ≤ c) (h2 : c < 2147483647) :
    wrapInt32 (c + 1) = c + 1 := by
  unfold wrapInt32
  omega

/-- The increment of the largest `int` wraps around to the smallest. -/
theorem wrapInt32_max : wrapInt32 (2147483647 + 1) = -2147483648 := by
  decide

theorem wrapInt32_range (n : Int) : -2147483648 ≤ wrapInt32 n ∧ wrapInt32 n < 2147483648 := by
  unfold wrapInt32
  omega

/-- Every call that does not execute `emitError` constructs no `ParsedError`
and keeps the id counter; every call that does constructs one, with the
current counter as id, and increments the counter. -/
theorem step_ids (parser : StackTraceParser) (s : State) (op : Op) :
    (reachesEmit s op = false ∧ constructedIds (step parser s op).events = [] ∧
      (step parser s op).state.exceptionId = s.exceptionId) ∨
    (reachesEmit s op = true ∧ constructedIds (step parser s op).events = [s.exceptionId] ∧
      (step parser s op).state.exceptionId = wrapInt32 (s.exceptionId + 1)) := by
  have hemit : ∀ (runtime : Runtime) (t : State) (error : JSError) (isFatal : Bool),
      constructedIds (emitError parser runtime t error isFatal).events = [t.exceptionId] := by
    intro runtime t error isFatal
    rw [constructedIds_eq, emitError_constructed]
    rfl
  cases op with
  | handleError runtime error isFatal =>
    simp only [step]
    cases hr : isRuntimeReady s with
    | false =>
      rw [handleError_not_ready _ _ _ _ _ hr]
      unfold isRuntimeReady at hr
      exact Or.inr ⟨by simp [reachesEmit, hr], hemit _ _ _ _, emitError_exceptionId _ _ _ _ _⟩
    | true =>
      rcases handleJSError_cases runtime error isFatal with hok | ⟨e, herr⟩
      · rw [handleError_ok _ _ _ _ _ hr hok]
        unfold isRuntimeReady at hr
        exact Or.inl ⟨by simp [reachesEmit, hr, hok], rfl,
          setHandledFatalError_exceptionId s isFatal⟩
      · rw [handleError_error _ _ _ _ _ e hr herr]
        unfold isRuntimeReady at hr
        refine Or.inr ⟨by simp [reachesEmit, hr, herr], ?_, ?_⟩
        · simp only [constructedIds]
          rw [hemit, setHandledFatalError_exceptionId]
        · simp only []
          rw [emitError_exceptionId, setHandledFatalError_exceptionId]
  | emitError runtime error isFatal =>
    exact Or.inr ⟨rfl, hemit _ _ _ _, emitError_exceptionId _ _ _ _ _⟩
  | registerErrorListener l => exact Or.inl ⟨rfl, rfl, rfl⟩
  | setRuntimeReady => exact Or.inl ⟨rfl, rfl, rfl⟩
  | notifyOfFatalError => exact Or.inl ⟨rfl, rfl, rfl⟩

theorem constructedIds_append (a b : List Event) :
    constructedIds (a ++ b) = constructedIds a ++ constructedIds b := by
  rw [constructedIds_eq, constructedIds_eq, constructedIds_eq, constructedErrors_append,
    List.map_append]

/-- A sequence of calls constructs as many ids as it executes `emitError`. -/
theorem run_ids_length (parser : StackTraceParser) (s : State) (ops : List Op) :
    (constructedIds (run parser s ops).2).length = emitExecutions parser s ops := by
  induction ops generalizing s with
  | nil => rfl
  | cons op ops ih =>
    simp only [run, emitExecutions]
    rw [constructedIds_append, List.length_append, ih]
    rcases step_ids parser s op with ⟨h0, h1, _⟩ | ⟨h0, h1, _⟩
    · rw [h0, h1]
      simp
    · rw [h0, h1]
      simp

/-- While the id counter stays in the range of `int`, the ids constructed by a
sequence of calls count up from the id counter of the state it starts in. -/
theorem run_ids (parser : StackTraceParser) (s : State) (ops : List Op)
    (hlow : -2147483648 ≤ s.exceptionId)
    (hbound : s.exceptionId + (emitExecutions parser s ops : Int) ≤ 2147483648) :
    constructedIds (run parser s ops).2 =
      (List.range (emitExecutions parser s ops)).map
        (fun (k : Nat) => s.exceptionId + (k : Int)) := by
  induction ops generalizing s with
  | nil => rfl
  | cons op ops ih =>
    simp only [run, emitExecutions] at hbound ⊢
    rw [constructedIds_append]
    rcases step_ids parser s op with ⟨h0, h1, h2⟩ | ⟨h0, h1, h2⟩
    · rw [h0] at hbound ⊢
      have hrest := ih (step parser s op).state (by rw [h2]; exact hlow)
        (by rw [h2]; simpa using hbound)
      rw [h2] at hrest
      rw [h1, List.nil_append, hrest]
      simp
    · rw [h0] at hbound ⊢
      simp only [if_true] at hbound ⊢
      rw [h1, List.singleton_append, Nat.add_comm 1, List.range_succ_eq_map, List.map_cons,
        List.map_map]
      congr 1
      · simp
      · by_cases hmax : s.exceptionId < 2147483647
        · have hw : wrapInt32 (s.exceptionId + 1) = s.exceptionId + 1 :=
            wrapInt32_succ _ hlow hmax
          have hrest := ih (step parser s op).state (by rw [h2, hw]; omega)
            (by rw [h2, hw]; push_cast at hbound; omega)
          rw [hrest, h2, hw]
          apply List.map_congr_left
          intro k _
          simp only [Function.comp, Nat.succ_eq_add_one]
          push_cast
          ring
        · have hzero : emitExecutions parser (step parser s op).state ops = 0 := by
            push_cast at hbound
            omega
          have hlen := run_ids_length parser (step parser s op).state ops
          rw [hzero] at hlen ⊢
          rw [List.length_eq_zero.mp hlen]
          rfl

/-- The calls of two sequences made one after the other. -/
theorem run_append (parser : StackTraceParser) (s : State) (a b : List Op) :
    run parser s (a ++ b) =
      ((run parser (run parser s a).1 b).1,
        (run parser s a).2 ++ (run parser (run parser s a).1 b).2) := by
  induction a generalizing s with
  | nil => rfl
  | cons op ops ih =>
    rw [List.cons_append]
    simp only [run]
    rw [ih]
    simp only [List.append_assoc]

/-- Below the largest `int`, `n` reports leave the id counter `n` higher and
execute `emitError` `n` times. -/
theorem manyReports_run (n : Nat) (s : State) (hlow : 0 ≤ s.exceptionId)
    (hbound : s.exceptionId + (n : Int) ≤ 2147483647) :
    (run sampleParser s (manyReports n)).1.exceptionId = s.exceptionId + (n : Int) ∧
    emitExecutions sampleParser s (manyReports n) = n := by
  induction n generalizing s with
  | zero =>
    constructor
    · simp [manyReports, run]
    · rfl
  | succ n ih =>
    have hstep : (emitError sampleParser sampleRuntime s sampleError false).state.exceptionId =
        s.exceptionId + 1 := by
      rw [emitError_exceptionId]
      exact wrapInt32_succ _ (by omega) (by push_cast at hbound; omega)
    have hrest := ih (emitError sampleParser sampleRuntime s sampleError false).state
      (by rw [hstep]; omega) (by rw [hstep]; push_cast at hbound; omega)
    rw [hstep] at hrest
    have hunfold : manyReports (n + 1) =
        Op.emitError sampleRuntime sampleError false :: manyReports n := by
      unfold manyReports
      exact List.replicate_succ _ _
    rw [hunfold]
    simp only [run, emitExecutions, step, reachesEmit, if_true]
    constructor
    · rw [hrest.1]
      push_cast
      ring
    · rw [hrest.2]
      omega

/-! ## The claims -/

/-- C1, as the code has it: after `handleError` with `isFatal = true`, the
latch is set whenever the runtime is ready, because the ready branch sets it
before the JS pipeline is tried; when the runtime is not ready the latch is
only set by `emitError`, after the listeners, so it is set exactly when it was
set before or the call returned with no `preventDefault` call. -/
theorem handleError_fatal_latch (parser : StackTraceParser) (runtime : Runtime) (s : State)
    (error : JSError) :
    (isRuntimeReady s = true →
      hasHandledFatalError (handleError parser runtime s error true).state = true) ∧
    (isRuntimeReady s = false →
      hasHandledFatalError (handleError parser runtime s error true).state =
        (hasHandledFatalError s ||
          ((handleError parser runtime s error true).raised.isNone &&
            decide (preventDefaultCalls (handleError parser runtime s error true).events = 0)))) := by
  constructor
  · intro hr
    rcases handleJSError_cases runtime error true with hok | ⟨e, herr⟩
    · rw [handleError_ok _ _ _ _ _ hr hok]
      rfl
    · rw [handleError_error _ _ _ _ _ e hr herr]
      simp only []
      rw [emitError_latch]
      simp [hasHandledFatalError, State.setHandledFatalError]
  · intro hr
    rw [handleError_not_ready _ _ _ _ _ hr, emitError_latch]
    simp

/-- C1, a worked case of the amended statement: with the runtime ready, a
failing JS pipeline and a listener that calls `preventDefault`, the latch is
set. -/
theorem handleError_fatal_latch_witness :
    isRuntimeReady (setRuntimeReady (stateWith [preventingListener])) = true ∧
    hasHandledFatalError (handleError sampleParser failingRuntime
      (setRuntimeReady (stateWith [preventingListener])) sampleError true).state = true :=
  ⟨rfl, (handleError_fatal_latch sampleParser failingRuntime
    (setRuntimeReady (stateWith [preventingListener])) sampleError).1 rfl⟩

/-- C1 fails as stated: with the runtime not ready and a listener that calls
`preventDefault`, `handleError` with `isFatal = true` returns and the latch is
still unset. -/
theorem handleError_fatal_latch_unset :
    isRuntimeReady (stateWith [preventingListener]) = false ∧
    (handleError sampleParser sampleRuntime (stateWith [preventingListener])
      sampleError true).raised.isNone = true ∧
    preventDefaultCalls (handleError sampleParser sampleRuntime
      (stateWith [preventingListener]) sampleError true).events = 1 ∧
    hasHandledFatalError (handleError sampleParser sampleRuntime
      (stateWith [preventingListener]) sampleError true).state = false := by
  decide

/-- C2: in an `emitError` call in which no listener throws and some listener
calls `preventDefault`, the terminal callback is not called, the call returns,
and every registered listener is called exactly once, in registration order,
with the object built for this call. -/
theorem emitError_suppressed (parser : StackTraceParser) (runtime : Runtime) (s : State)
    (error : JSError) (isFatal : Bool)
    (hraise : ∀ l ∈ s.self._errorListeners,
      (l (emitData parser runtime s error isFatal)).raises = none)
    (hprevent : ∃ l ∈ s.self._errorListeners,
      (l (emitData parser runtime s error isFatal)).callsPreventDefault = true) :
    terminalCalls (emitError parser runtime s error isFatal).events = [] ∧
    listenerCalls (emitError parser runtime s error isFatal).events =
      (List.range s.self._errorListeners.length).map
        (fun k => (k, emitData parser runtime s error isFatal)) ∧
    (emitError parser runtime s error isFatal).raised = none := by
  obtain ⟨h1, h2, h3⟩ := notifyListeners_all s.self._errorListeners 0
    (emitData parser runtime s error isFatal) false hraise
  have hflag := notifyListeners_flag s.self._errorListeners 0
    (emitData parser runtime s error isFatal) false
  have hany : s.self._errorListeners.any
      (fun l => (l (emitData parser runtime s error isFatal)).callsPreventDefault) = true := by
    obtain ⟨l, hl, hp⟩ := hprevent
    exact List.any_eq_true.mpr ⟨l, hl, hp⟩
  rw [hany] at h3
  rw [h3] at hflag
  have hpos : 0 < preventDefaultCalls (notifyListeners s.self._errorListeners 0
      (emitData parser runtime s error isFatal) false).events := by simpa using hflag
  refine ⟨?_, ?_, ?_⟩
  · rw [emitError_terminal, emitError_preventDefaultCalls]
    have hne : ¬ preventDefaultCalls (notifyListeners s.self._errorListeners 0
        (emitData parser runtime s error isFatal) false).events = 0 := by omega
    simp [hne]
  · rw [emitError_listenerCalls, h2]
    simp
  · rw [emitError_raised, h1]

/-- C2, the worked case: of two listeners, the first does nothing and the
second calls `preventDefault`; both are called and the terminal callback is
not. -/
theorem emitError_suppressed_witness :
    terminalCalls (emitError sampleParser sampleRuntime
      (stateWith [noopListener, preventingListener]) sampleError true).events = [] ∧
    listenerCalls (emitError sampleParser sampleRuntime
      (stateWith [noopListener, preventingListener]) sampleError true).events =
      (List.range 2).map (fun k => (k, emitData sampleParser sampleRuntime
        (stateWith [noopListener, preventingListener]) sampleError true)) ∧
    (emitError sampleParser sampleRuntime
      (stateWith [noopListener, preventingListener]) sampleError true).raised = none :=
  emitError_suppressed sampleParser sampleRuntime
    (stateWith [noopListener, preventingListener]) sampleError true
    (by
      intro l hl
      have hmem : l = noopListener ∨ l = preventingListener := by
        simpa [stateWith, registerErrorListener, State.init] using hl
      rcases hmem with h | h <;> subst h <;> rfl)
    ⟨preventingListener, by simp [stateWith, registerErrorListener, State.init], rfl⟩

/-- C3: once `hasHandledFatalError` is true it is true after every finite
sequence of `handleError`, `emitError`, `registerErrorListener`,
`setRuntimeReady` and `notifyOfFatalError` calls, whatever the pipeline and
the listeners do. -/
theorem latch_one_way (parser : StackTraceParser) (s : State) (ops : List Op)
    (h : hasHandledFatalError s = true) :
    hasHandledFatalError (run parser s ops).1 = true := by
  induction ops generalizing s with
  | nil => exact h
  | cons op ops ih => exact ih (step parser s op).state (step_latch parser s op h)

/-- C3, a worked case: the latch set by `notifyOfFatalError` survives a
non-fatal report, a suppressed fatal report and a listener that throws. -/
theorem latch_one_way_witness :
    hasHandledFatalError (notifyOfFatalError (stateWith [preventingListener])) = true ∧
    hasHandledFatalError (run sampleParser (notifyOfFatalError (stateWith [preventingListener]))
      [Op.handleError sampleRuntime sampleError false,
       Op.emitError sampleRuntime sampleError true,
       Op.setRuntimeReady,
       Op.registerErrorListener raisingListener,
       Op.handleError failingRuntime sampleError false]).1 = true :=
  ⟨rfl, latch_one_way sampleParser (notifyOfFatalError (stateWith [preventingListener])) _ rfl⟩

/-- C4: when the runtime is ready and the JS pipeline throws `e`, `handleError`
calls the pipeline once, logs, and then does what `handleError` does in a
state `t` that is not ready and has the same listeners and id counter: the
same `ParsedError` is built, the same listener calls and the same terminal
callback calls follow, and the only exception that can leave the call is the
one that leaves that fallback, not the pipeline's. -/
theorem handleError_pipeline_failure (parser : StackTraceParser) (runtime : Runtime)
    (s t : State) (error : JSError) (isFatal : Bool) (e : JSError)
    (hready : isRuntimeReady s = true)
    (hfail : handleJSError runtime error isFatal = Except.error e)
    (hnot : isRuntimeReady t = false)
    (hid : t.exceptionId = s.exceptionId)
    (hls : t.self._errorListeners = s.self._errorListeners) :
    (handleError parser runtime s error isFatal).events =
      Event.pipeline error isFatal :: Event.log e.message error.message ::
        (handleError parser runtime t error isFatal).events ∧
    (handleError parser runtime s error isFatal).raised =
      (handleError parser runtime t error isFatal).raised ∧
    (handleError parser runtime t error isFatal).events =
      (emitError parser runtime t error isFatal).events ∧
    constructedErrors (handleError parser runtime s error isFatal).events =
      constructedErrors (handleError parser runtime t error isFatal).events ∧
    listenerCalls (handleError parser runtime s error isFatal).events =
      listenerCalls (handleError parser runtime t error isFatal).events ∧
    terminalCalls (handleError parser runtime s error isFatal).events =
      terminalCalls (handleError parser runtime t error isFatal).events ∧
    ((∀ l ∈ s.self._errorListeners,
        (l (emitData parser runtime s error isFatal)).raises = none) →
      (handleError parser runtime s error isFatal).raised = none) := by
  have hcongr := emitError_congr parser runtime
    (if isFatal then s.setHandledFatalError else s) t error isFatal
    (by rw [setHandledFatalError_exceptionId]; exact hid)
    (by rw [setHandledFatalError_listeners]; exact hls)
  have hquiet : (∀ l ∈ s.self._errorListeners,
        (l (emitData parser runtime s error isFatal)).raises = none) →
      (handleError parser runtime s error isFatal).raised = none := by
    intro hraise
    have hs := emitError_congr parser runtime s
      (if isFatal then s.setHandledFatalError else s) error isFatal
      (setHandledFatalError_exceptionId s isFatal) (setHandledFatalError_listeners s isFatal)
    rw [handleError_error _ _ _ _ _ e hready hfail]
    simp only []
    rw [hs.2, emitError_raised]
    exact (notifyListeners_all _ 0 _ false hraise).1
  have hev : (handleError parser runtime s error isFatal).events =
      Event.pipeline error isFatal :: Event.log e.message error.message ::
        (handleError parser runtime t error isFatal).events := by
    rw [handleError_error _ _ _ _ _ e hready hfail, handleError_not_ready _ _ _ _ _ hnot,
      hcongr.1]
  refine ⟨hev, ?_, ?_, ?_, ?_, ?_, hquiet⟩
  · rw [handleError_error _ _ _ _ _ e hready hfail, handleError_not_ready _ _ _ _ _ hnot,
      hcongr.2]
  · rw [handleError_not_ready _ _ _ _ _ hnot]
  · rw [hev]
    rfl
  · rw [hev]
    rfl
  · rw [hev]
    rfl

/-- C4, a worked case: a ready handler whose pipeline throws, against the
same handler before `setRuntimeReady`. -/
theorem handleError_pipeline_failure_witness :
    (handleError sampleParser failingRuntime
        (setRuntimeReady (stateWith [noopListener])) sampleError true).events =
      Event.pipeline sampleError true ::
        Event.log reportingFailure.message sampleError.message ::
        (handleError sampleParser failingRuntime (stateWith [noopListener])
          sampleError true).events ∧
    (handleError sampleParser failingRuntime
        (setRuntimeReady (stateWith [noopListener])) sampleError true).raised =
      (handleError sampleParser failingRuntime (stateWith [noopListener])
        sampleError true).raised :=
  ⟨(handleError_pipeline_failure sampleParser failingRuntime
      (setRuntimeReady (stateWith [noopListener])) (stateWith [noopListener]) sampleError true
      reportingFailure rfl rfl rfl rfl rfl).1,
   (handleError_pipeline_failure sampleParser failingRuntime
      (setRuntimeReady (stateWith [noopListener])) (stateWith [noopListener]) sampleError true
      reportingFailure rfl rfl rfl rfl rfl).2.1⟩

/-- C5: when the runtime is not ready, `handleError` is `emitError` on the
same arguments (same calls, same exception, same final state) and the JS
pipeline is not called. -/
theorem handleError_not_ready_is_emitError (parser : StackTraceParser) (runtime : Runtime)
    (s : State) (error : JSError) (isFatal : Bool) (hnot : isRuntimeReady s = false) :
    handleError parser runtime s error isFatal = emitError parser runtime s error isFatal ∧
    pipelineCalls (handleError parser runtime s error isFatal).events = [] := by
  rw [handleError_not_ready _ _ _ _ _ hnot]
  exact ⟨rfl, emitError_pipeline _ _ _ _ _⟩

/-- C5, a worked case: a fresh handler with one listener, given a runtime
whose pipeline would throw. -/
theorem handleError_not_ready_is_emitError_witness :
    handleError sampleParser failingRuntime (stateWith [noopListener]) sampleError false =
      emitError sampleParser failingRuntime (stateWith [noopListener]) sampleError false ∧
    pipelineCalls (handleError sampleParser failingRuntime (stateWith [noopListener])
      sampleError false).events = [] :=
  handleError_not_ready_is_emitError sampleParser failingRuntime (stateWith [noopListener])
    sampleError false rfl

/-- C6: when the runtime is ready and the JS pipeline returns, `handleError`
returns after that single pipeline call: no `ParsedError` is built, no
listener and no terminal callback is called, and the id counter and the
listeners are unchanged. -/
theorem handleError_pipeline_success (parser : StackTraceParser) (runtime : Runtime)
    (s : State) (error : JSError) (isFatal : Bool)
    (hready : isRuntimeReady s = true)
    (hok : handleJSError runtime error isFatal = Except.ok ()) :
    (handleError parser runtime s error isFatal).raised = none ∧
    (handleError parser runtime s error isFatal).events = [Event.pipeline error isFatal] ∧
    constructedErrors (handleError parser runtime s error isFatal).events = [] ∧
    listenerCalls (handleError parser runtime s error isFatal).events = [] ∧
    terminalCalls (handleError parser runtime s error isFatal).events = [] ∧
    (handleError parser runtime s error isFatal).state.exceptionId = s.exceptionId ∧
    (handleError parser runtime s error isFatal).state.self._errorListeners =
      s.self._errorListeners := by
  rw [handleError_ok _ _ _ _ _ hready hok]
  exact ⟨rfl, rfl, rfl, rfl, rfl, setHandledFatalError_exceptionId s isFatal,
    setHandledFatalError_listeners s isFatal⟩

/-- C6, a worked case: a ready handler with a listener and a pipeline that
returns. -/
theorem handleError_pipeline_success_witness :
    (handleError sampleParser sampleRuntime
      (setRuntimeReady (stateWith [preventingListener])) sampleError true).raised = none ∧
    listenerCalls (handleError sampleParser sampleRuntime
      (setRuntimeReady (stateWith [preventingListener])) sampleError true).events = [] ∧
    terminalCalls (handleError sampleParser sampleRuntime
      (setRuntimeReady (stateWith [preventingListener])) sampleError true).events = [] ∧
    (handleError sampleParser sampleRuntime
      (setRuntimeReady (stateWith [preventingListener])) sampleError true).state.exceptionId = 0 :=
  have h := handleError_pipeline_success sampleParser sampleRuntime
    (setRuntimeReady (stateWith [preventingListener])) sampleError true rfl rfl
  ⟨h.1, h.2.2.2.1, h.2.2.2.2.1, h.2.2.2.2.2.1⟩

/-- C9, as the code has it: from program start, every execution of
`emitError` (direct, or through `handleError` when the runtime is not ready
or the JS pipeline throws) gives one id to the `ParsedError` it builds, and
as long as the sequence executes `emitError` at most `2^31` times, so that the
32-bit counter has not wrapped, these ids are 0, 1, 2, ... in order, strictly
increasing and pairwise distinct. -/
theorem exception_ids_count_up (parser : StackTraceParser) (ops : List Op) :
    (constructedIds (run parser State.init ops).2).length =
      emitExecutions parser State.init ops ∧
    constructedIds (run parser State.init ops).2 =
      (constructedErrors (run parser State.init ops).2).map (fun pe => pe.id) ∧
    (emitExecutions parser State.init ops ≤ 2147483648 →
      constructedIds (run parser State.init ops).2 =
        (List.range (emitExecutions parser State.init ops)).map
          (fun (k : Nat) => (k : Int)) ∧
      (constructedIds (run parser State.init ops).2).Pairwise (fun a b => a < b) ∧
      (constructedIds (run parser State.init ops).2).Nodup) := by
  refine ⟨run_ids_length parser State.init ops, constructedIds_eq _, ?_⟩
  intro hbound
  have h := run_ids parser State.init ops (by decide)
    (by
      have : State.init.exceptionId = 0 := rfl
      rw [this]
      omega)
  have h0 : (fun (k : Nat) => State.init.exceptionId + (k : Int)) =
      (fun (k : Nat) => (k : Int)) := by
    funext k
    simp [State.init]
  rw [h0] at h
  have hpw : (constructedIds (run parser State.init ops).2).Pairwise (fun a b => a < b) := by
    rw [h]
    rw [List.pairwise_map]
    exact (List.pairwise_lt_range _).imp (fun hab => by exact_mod_cast hab)
  exact ⟨h, hpw, hpw.imp (fun hab => ne_of_lt hab)⟩

/-- C9, a worked case: a not-ready `handleError`, a suppressed `emitError`
and, once the runtime is ready, a `handleError` whose pipeline returns and
one whose pipeline throws execute `emitError` three times, with the ids 0, 1
and 2. -/
theorem exception_ids_count_up_witness :
    emitExecutions sampleParser State.init
      [Op.handleError sampleRuntime sampleError true,
       Op.registerErrorListener preventingListener,
       Op.emitError sampleRuntime sampleError false,
       Op.setRuntimeReady,
       Op.handleError sampleRuntime sampleError false,
       Op.handleError failingRuntime sampleError false] = 3 ∧
    constructedIds (run sampleParser State.init
      [Op.handleError sampleRuntime sampleError true,
       Op.registerErrorListener preventingListener,
       Op.emitError sampleRuntime sampleError false,
       Op.setRuntimeReady,
       Op.handleError sampleRuntime sampleError false,
       Op.handleError failingRuntime sampleError false]).2 =
      (List.range 3).map (fun (k : Nat) => (k : Int)) :=
  ⟨by decide,
   ((exception_ids_count_up sampleParser
      [Op.handleError sampleRuntime sampleError true,
       Op.registerErrorListener preventingListener,
       Op.emitError sampleRuntime sampleError false,
       Op.setRuntimeReady,
       Op.handleError sampleRuntime sampleError false,
       Op.handleError failingRuntime sampleError false]).2.2 (by decide)).1⟩

/-- C9 fails as stated: on a fresh handler, `2^31 + 1` direct `emitError`
calls give the ids 0, ..., 2147483647 and then -2147483648, because the
32-bit counter wraps; the ids are not strictly increasing. -/
theorem exception_ids_wrap :
    constructedIds (run sampleParser State.init (manyReports 2147483649)).2 =
      (List.range 2147483647).map (fun (k : Nat) => (k : Int)) ++
        [2147483647, -2147483648] ∧
    ¬ (constructedIds (run sampleParser State.init (manyReports 2147483649)).2).Pairwise
      (fun a b => a < b) := by
  have hsplit : manyReports 2147483649 = manyReports 2147483647 ++ manyReports 2 := by
    unfold manyReports
    show List.replicate (2147483647 + 2) _ = _
    exact List.append_replicate_replicate.symm
  have hinit : State.init.exceptionId = 0 := rfl
  have hrun := manyReports_run 2147483647 State.init (by decide) (by decide)
  have hids := run_ids sampleParser State.init (manyReports 2147483647) (by decide)
    (by rw [hrun.2]; decide)
  rw [hrun.2] at hids
  have hfun : (fun (k : Nat) => State.init.exceptionId + (k : Int)) =
      (fun (k : Nat) => (k : Int)) := by
    funext k
    rw [hinit, Int.zero_add]
  rw [hfun] at hids
  have hcounter : (run sampleParser State.init (manyReports 2147483647)).1.exceptionId =
      2147483647 := by
    rw [hrun.1, hinit]
    decide
  have htail : ∀ t : State, t.exceptionId = 2147483647 →
      constructedIds (run sampleParser t (manyReports 2)).2 = [2147483647, -2147483648] := by
    intro t ht
    have hfirst : constructedIds
        (emitError sampleParser sampleRuntime t sampleError false).events = [t.exceptionId] := by
      rw [constructedIds_eq, emitError_constructed]
      rfl
    have hsecond : constructedIds
        (emitError sampleParser sampleRuntime
          (emitError sampleParser sampleRuntime t sampleError false).state
          sampleError false).events =
        [(emitError sampleParser sampleRuntime t sampleError false).state.exceptionId] := by
      rw [constructedIds_eq, emitError_constructed]
      rfl
    have hunfold : manyReports 2 =
        [Op.emitError sampleRuntime sampleError false,
         Op.emitError sampleRuntime sampleError false] := rfl
    rw [hunfold]
    simp only [run, step, List.append_nil]
    rw [constructedIds_append, hfirst, hsecond, emitError_exceptionId, ht, wrapInt32_max]
    rfl
  have heq : constructedIds (run sampleParser State.init (manyReports 2147483649)).2 =
      (List.range 2147483647).map (fun (k : Nat) => (k : Int)) ++
        [2147483647, -2147483648] := by
    rw [hsplit, run_append]
    show constructedIds ((run sampleParser State.init (manyReports 2147483647)).2 ++
      (run sampleParser (run sampleParser State.init (manyReports 2147483647)).1
        (manyReports 2)).2) = _
    rw [constructedIds_append, hids, htail _ hcounter]
  refine ⟨heq, ?_⟩
  rw [heq]
  intro hpw
  have hpair := (List.pairwise_append.mp hpw).2.1
  have hlt : (2147483647 : Int) < -2147483648 := List.pairwise_pair.mp hpair
  exact absurd hlt (by decide)

/-- C10, as the code has it: a `handleError` call that returns has produced a
report unless a listener suppressed it: the JS pipeline was called and
returned, or the terminal callback was called with the `ParsedError` built in
the call, or a listener called `preventDefault`. -/
theorem handleError_reports (parser : StackTraceParser) (runtime : Runtime) (s : State)
    (error : JSError) (isFatal : Bool)
    (hreturns : (handleError parser runtime s error isFatal).raised.isNone = true) :
    (isRuntimeReady s = true ∧ handleJSError runtime error isFatal = Except.ok () ∧
      pipelineCalls (handleError parser runtime s error isFatal).events = [(error, isFatal)]) ∨
    (∃ parsedError,
      constructedErrors (handleError parser runtime s error isFatal).events = [parsedError] ∧
      terminalCalls (handleError parser runtime s error isFatal).events = [parsedError]) ∨
    0 < preventDefaultCalls (handleError parser runtime s error isFatal).events := by
  have hemit : ∀ t : State, (emitError parser runtime t error isFatal).raised.isNone = true →
      (∃ parsedError,
        constructedErrors (emitError parser runtime t error isFatal).events = [parsedError] ∧
        terminalCalls (emitError parser runtime t error isFatal).events = [parsedError]) ∨
      0 < preventDefaultCalls (emitError parser runtime t error isFatal).events := by
    intro t ht
    by_cases hp : preventDefaultCalls (emitError parser runtime t error isFatal).events = 0
    · left
      refine ⟨(emitData parser runtime t error isFatal).parsedError,
        emitError_constructed _ _ _ _ _, ?_⟩
      rw [emitError_terminal, if_pos ⟨ht, hp⟩]
    · right
      omega
  cases hr : isRuntimeReady s with
  | false =>
    rw [handleError_not_ready _ _ _ _ _ hr] at hreturns ⊢
    exact Or.inr (hemit s hreturns)
  | true =>
    rcases handleJSError_cases runtime error isFatal with hok | ⟨e, herr⟩
    · left
      rw [handleError_ok _ _ _ _ _ hr hok]
      exact ⟨rfl, hok, rfl⟩
    · right
      rw [handleError_error _ _ _ _ _ e hr herr] at hreturns ⊢
      exact hemit _ hreturns

/-- C10, a worked case: a fresh handler with a listener that does nothing
reports through the terminal callback. -/
theorem handleError_reports_witness :
    (handleError sampleParser sampleRuntime (stateWith [noopListener])
      sampleError false).raised.isNone = true ∧
    ((isRuntimeReady (stateWith [noopListener]) = true ∧
      handleJSError sampleRuntime sampleError false = Except.ok () ∧
      pipelineCalls (handleError sampleParser sampleRuntime (stateWith [noopListener])
        sampleError false).events = [(sampleError, false)]) ∨
    (∃ parsedError,
      constructedErrors (handleError sampleParser sampleRuntime (stateWith [noopListener])
        sampleError false).events = [parsedError] ∧
      terminalCalls (handleError sampleParser sampleRuntime (stateWith [noopListener])
        sampleError false).events = [parsedError]) ∨
    0 < preventDefaultCalls (handleError sampleParser sampleRuntime (stateWith [noopListener])
      sampleError false).events) :=
  ⟨rfl, handleError_reports sampleParser sampleRuntime (stateWith [noopListener])
    sampleError false rfl⟩

/-- C10 fails as stated: with the runtime not ready and a listener that
throws, `handleError` throws; the JS pipeline was not called, the terminal
callback was not called, and no listener called `preventDefault`. -/
theorem handleError_no_report :
    (handleError sampleParser sampleRuntime (stateWith [raisingListener])
      sampleError true).raised.isSome = true ∧
    (pipelineCalls (handleError sampleParser sampleRuntime (stateWith [raisingListener])
      sampleError true).events).length = 0 ∧
    (terminalCalls (handleError sampleParser sampleRuntime (stateWith [raisingListener])
      sampleError true).events).length = 0 ∧
    preventDefaultCalls (handleError sampleParser sampleRuntime (stateWith [raisingListener])
      sampleError true).events = 0 ∧
    (listenerCalls (handleError sampleParser sampleRuntime (stateWith [raisingListener])
      sampleError true).events).length = 1 := by
  decide

/-! ## The message -/

/-- The `starts_with` test holds exactly when the string is the given
beginning followed by some rest. -/
theorem starts_with_iff (s p : String) :
    starts_with s p = true ↔ ∃ rest : String, s = p ++ rest := by
  unfold starts_with
  rw [List.isPrefixOf_iff_prefix]
  constructor
  · rintro ⟨t, ht⟩
    refine ⟨⟨t⟩, ?_⟩
    apply String.ext
    rw [String.data_append, ht]
  · rintro ⟨rest, hrest⟩
    refine ⟨rest.data, ?_⟩
    rw [hrest, String.data_append]

/-- C7: the name step of `emitError`. With the name property present (not
null, not undefined, not the empty string) and `n` its text, a message `m`
that starts with `n ++ ": "` is kept and any other becomes `n ++ ": " ++ m`;
with the name property null, undefined or the empty string the message is
kept. The step is the one between the component stack and the engine in the
message of the `ParsedError`. -/
theorem applyName_spec (m : String) (nameValue : Value) :
    (isLooselyNull nameValue = false → isEmptyString nameValue = false →
      ((∃ rest : String, m = stringifyToCpp nameValue ++ ": " ++ rest) →
        applyName (nameOf nameValue) m = m) ∧
      ((¬ ∃ rest : String, m = stringifyToCpp nameValue ++ ": " ++ rest) →
        applyName (nameOf nameValue) m = stringifyToCpp nameValue ++ ": " ++ m) ∧
      applyName (nameOf nameValue) m =
        (if starts_with m (stringifyToCpp nameValue ++ ": ") then m
          else stringifyToCpp nameValue ++ ": " ++ m)) ∧
    ((nameValue = Value.null ∨ nameValue = Value.undefined ∨ nameValue = Value.string "") →
      applyName (nameOf nameValue) m = m) ∧
    (∀ (parser : StackTraceParser) (runtime : Runtime) (error : JSError) (isFatal : Bool)
        (id : Int),
      (buildParsedError parser runtime error isFatal id).message =
        "EarlyJsError: " ++
          appendJsEngine
            (applyName (nameOf (getProperty error.value "name"))
              (appendComponentStack error.message (getProperty error.value "componentStack")))
            (getProperty error.value "jsEngine")) := by
  refine ⟨?_, ?_, ?_⟩
  · intro h1 h2
    have hname : nameOf nameValue = some (stringifyToCpp nameValue) := by
      simp [nameOf, h1, h2]
    rw [hname]
    refine ⟨?_, ?_, ?_⟩
    · intro hex
      have := (starts_with_iff m (stringifyToCpp nameValue ++ ": ")).mpr hex
      simp [applyName, this]
    · intro hex
      have : starts_with m (stringifyToCpp nameValue ++ ": ") = false := by
        cases hsw : starts_with m (stringifyToCpp nameValue ++ ": ")
        · rfl
        · exact absurd ((starts_with_iff m _).mp hsw) hex
      simp [applyName, this]
    · cases hsw : starts_with m (stringifyToCpp nameValue ++ ": ") <;> simp [applyName, hsw]
  · rintro (h | h | h) <;> subst h <;> rfl
  · intro parser runtime error isFatal id
    rfl

/-- C7, the worked cases: `x is not a function` with the name `TypeError`
becomes `TypeError: x is not a function`, and `TypeError: boom` with the name
`TypeError` is kept. -/
theorem applyName_spec_witness :
    applyName (nameOf (Value.string "TypeError")) "x is not a function" =
      "TypeError: x is not a function" ∧
    applyName (nameOf (Value.string "TypeError")) "TypeError: boom" = "TypeError: boom" :=
  ⟨((applyName_spec "x is not a function" (Value.string "TypeError")).1 rfl rfl).2.2,
   ((applyName_spec "TypeError: boom" (Value.string "TypeError")).1 rfl rfl).1
     ⟨"boom", rfl⟩⟩

/-- When the listeners before `l` return and `l` throws, the loop ends with
the exception of `l`, having called the listeners up to `l` and no other. -/
theorem notifyListeners_raise (before after : List ErrorListener) (l : ErrorListener)
    (e : JSError) (i : Nat) (data : ListenerData) (f : Bool)
    (hbefore : ∀ l0 ∈ before, (l0 data).raises = none) (hl : (l data).raises = some e) :
    (notifyListeners (before ++ l :: after) i data f).raised = some e ∧
    listenerCalls (notifyListeners (before ++ l :: after) i data f).events =
      (List.range (before.length + 1)).map (fun k => (i + k, data)) := by
  induction before generalizing i f with
  | nil =>
    constructor
    · simp [notifyListeners, hl]
    · cases hp : (l data).callsPreventDefault <;>
        simp [notifyListeners, hl, hp, listenerCalls, List.range_succ]
  | cons b rest ih =>
    have hb : (b data).raises = none := hbefore b (List.mem_cons_self _ _)
    have hrest : ∀ l0 ∈ rest, (l0 data).raises = none :=
      fun l0 hmem => hbefore l0 (List.mem_cons_of_mem _ hmem)
    obtain ⟨h1, h2⟩ := ih (i + 1) (f || (b data).callsPreventDefault) hrest
    have hshift : (fun k => (i + 1 + k, data)) = (fun k => (i + k, data)) ∘ Nat.succ := by
      funext k
      simp only [Function.comp, Nat.succ_eq_add_one]
      congr 1
      omega
    constructor
    · simp [notifyListeners, hb, h1]
    · rw [List.length_cons, List.range_succ_eq_map, List.map_cons, List.map_map, ← hshift, ← h2]
      cases hp : (b data).callsPreventDefault
      · simp [notifyListeners, hb, hp, listenerCalls]
      · simp [notifyListeners, hb, hp, listenerCalls]

/-- The terminal callback, when called, is the last call of `emitError`. -/
theorem emitError_events_last (parser : StackTraceParser) (runtime : Runtime) (s : State)
    (error : JSError) (isFatal : Bool)
    (h : terminalCalls (emitError parser runtime s error isFatal).events ≠ []) :
    ∃ earlier, (emitError parser runtime s error isFatal).events =
      earlier ++ [Event.onJsError (emitData parser runtime s error isFatal).parsedError] ∧
      terminalCalls earlier = [] := by
  rw [emitError_unfold] at h ⊢
  revert h
  split
  · intro h
    simp [terminalCalls, notifyListeners_terminal] at h
  · split
    · intro h
      simp [terminalCalls, notifyListeners_terminal] at h
    · intro _
      exact ⟨_, rfl, by simp [terminalCalls, notifyListeners_terminal]⟩

/-- C11: a direct `emitError` call with `isFatal = true` in which a listener
calls `preventDefault` leaves `hasHandledFatalError` as it was and does not
call the terminal callback. -/
theorem emitError_fatal_suppressed (parser : StackTraceParser) (runtime : Runtime) (s : State)
    (error : JSError)
    (hprevent : 0 < preventDefaultCalls (emitError parser runtime s error true).events) :
    hasHandledFatalError (emitError parser runtime s error true).state =
      hasHandledFatalError s ∧
    terminalCalls (emitError parser runtime s error true).events = [] := by
  have hne : ¬ preventDefaultCalls (emitError parser runtime s error true).events = 0 := by
    omega
  constructor
  · rw [emitError_latch]
    simp [hne]
  · rw [emitError_terminal]
    simp [hne]

/-- C11, a worked case: on a fresh handler with one listener that calls
`preventDefault`, a fatal `emitError` leaves the latch unset. -/
theorem emitError_fatal_suppressed_witness :
    0 < preventDefaultCalls (emitError sampleParser sampleRuntime
      (stateWith [preventingListener]) sampleError true).events ∧
    hasHandledFatalError (emitError sampleParser sampleRuntime
      (stateWith [preventingListener]) sampleError true).state = false ∧
    terminalCalls (emitError sampleParser sampleRuntime
      (stateWith [preventingListener]) sampleError true).events = [] :=
  ⟨by decide,
   (emitError_fatal_suppressed sampleParser sampleRuntime (stateWith [preventingListener])
     sampleError (by decide)).1,
   (emitError_fatal_suppressed sampleParser sampleRuntime (stateWith [preventingListener])
     sampleError (by decide)).2⟩

/-- C12: in an `emitError` call in which no listener throws, the terminal
callback is called once when no listener called `preventDefault` and not at
all otherwise. Its argument is the `ParsedError` built in the call, whose
`isFatal` is the flag of the caller, the call is the last thing `emitError`
does, and the value that `_hasHandledFatalError` has at the moment of the
call is true when `isFatal = true` (and its value before `emitError`
otherwise). -/
theorem emitError_terminal_callback (parser : StackTraceParser) (runtime : Runtime)
    (s : State) (error : JSError) (isFatal : Bool)
    (hraise : ∀ l ∈ s.self._errorListeners,
      (l (emitData parser runtime s error isFatal)).raises = none) :
    (preventDefaultCalls (emitError parser runtime s error isFatal).events = 0 ↔
      ∀ l ∈ s.self._errorListeners,
        (l (emitData parser runtime s error isFatal)).callsPreventDefault = false) ∧
    (preventDefaultCalls (emitError parser runtime s error isFatal).events = 0 →
      terminalCalls (emitError parser runtime s error isFatal).events =
        [(emitData parser runtime s error isFatal).parsedError] ∧
      (∃ earlier, (emitError parser runtime s error isFatal).events =
        earlier ++ [Event.onJsError (emitData parser runtime s error isFatal).parsedError] ∧
        terminalCalls earlier = []) ∧
      (isFatal = true →
        hasHandledFatalError (emitError parser runtime s error isFatal).state = true) ∧
      (emitError parser runtime s error isFatal).latchAtOnJsError =
        [hasHandledFatalError s || isFatal] ∧
      (isFatal = true →
        (emitError parser runtime s error isFatal).latchAtOnJsError = [true])) ∧
    (0 < preventDefaultCalls (emitError parser runtime s error isFatal).events →
      terminalCalls (emitError parser runtime s error isFatal).events = [] ∧
      (emitError parser runtime s error isFatal).latchAtOnJsError = []) ∧
    constructedErrors (emitError parser runtime s error isFatal).events =
      [(emitData parser runtime s error isFatal).parsedError] ∧
    (emitData parser runtime s error isFatal).parsedError.isFatal = isFatal := by
  obtain ⟨h1, _, h3⟩ := notifyListeners_all s.self._errorListeners 0
    (emitData parser runtime s error isFatal) false hraise
  have hflag := notifyListeners_flag s.self._errorListeners 0
    (emitData parser runtime s error isFatal) false
  have hnone : (emitError parser runtime s error isFatal).raised.isNone = true := by
    rw [emitError_raised, h1]
    rfl
  refine ⟨?_, ?_, ?_, emitError_constructed _ _ _ _ _, rfl⟩
  · rw [emitError_preventDefaultCalls]
    rw [h3] at hflag
    constructor
    · intro hz l hl
      rw [hz] at hflag
      have hany : s.self._errorListeners.any
          (fun l => (l (emitData parser runtime s error isFatal)).callsPreventDefault) =
          false := by simpa using hflag
      cases hp : (l (emitData parser runtime s error isFatal)).callsPreventDefault
      · rfl
      · have : s.self._errorListeners.any
            (fun l => (l (emitData parser runtime s error isFatal)).callsPreventDefault) =
            true := List.any_eq_true.mpr ⟨l, hl, hp⟩
        rw [this] at hany
        exact absurd hany (by decide)
    · intro hall
      have hany : s.self._errorListeners.any
          (fun l => (l (emitData parser runtime s error isFatal)).callsPreventDefault) =
          false := by
        cases hq : s.self._errorListeners.any
          (fun l => (l (emitData parser runtime s error isFatal)).callsPreventDefault)
        · rfl
        · obtain ⟨l, hl, hp⟩ := List.any_eq_true.mp hq
          rw [hall l hl] at hp
          exact absurd hp (by decide)
      rw [hany] at hflag
      have : ¬ 0 < preventDefaultCalls (notifyListeners s.self._errorListeners 0
          (emitData parser runtime s error isFatal) false).events := by simpa using hflag.symm
      omega
  · intro hz
    have hterm : terminalCalls (emitError parser runtime s error isFatal).events =
        [(emitData parser runtime s error isFatal).parsedError] := by
      rw [emitError_terminal, if_pos ⟨hnone, hz⟩]
    have hlatch : (emitError parser runtime s error isFatal).latchAtOnJsError =
        [hasHandledFatalError s || isFatal] := by
      rw [emitError_latchAtOnJsError, if_pos ⟨hnone, hz⟩]
    refine ⟨hterm, ?_, ?_, hlatch, ?_⟩
    · apply emitError_events_last
      rw [hterm]
      exact List.cons_ne_nil _ _
    · intro hf
      rw [emitError_latch, hnone, hz, hf]
      simp
    · intro hf
      rw [hlatch, hf, Bool.or_true]
  · intro hpos
    have hne : ¬ preventDefaultCalls (emitError parser runtime s error isFatal).events = 0 := by
      omega
    constructor
    · rw [emitError_terminal]
      simp [hne]
    · rw [emitError_latchAtOnJsError]
      simp [hne]

/-- C12, a worked case: a fresh handler, whose latch is unset, with one
listener that does nothing; the fatal report reaches the terminal callback
once and the latch is set at the moment of the call. -/
theorem emitError_terminal_callback_witness :
    hasHandledFatalError (stateWith [noopListener]) = false ∧
    terminalCalls (emitError sampleParser sampleRuntime (stateWith [noopListener])
        sampleError true).events =
      [(emitData sampleParser sampleRuntime (stateWith [noopListener])
        sampleError true).parsedError] ∧
    (emitError sampleParser sampleRuntime (stateWith [noopListener])
      sampleError true).latchAtOnJsError = [true] :=
  have h := (emitError_terminal_callback sampleParser sampleRuntime (stateWith [noopListener])
    sampleError true (by
      intro l hl
      have hmem : l = noopListener := by
        simpa [stateWith, registerErrorListener, State.init] using hl
      subst hmem
      rfl)).2.1 (by decide)
  ⟨rfl, h.1, h.2.2.2.2 rfl⟩

/-- C17: when a registered listener throws during the loop of `emitError`,
the exception leaves `emitError`, and leaves `handleError` when `emitError`
was reached through it (runtime not ready, or JS pipeline failed): the
listeners registered after it are not called, the terminal callback is not
called, and `emitError` does not touch the latch. -/
theorem emitError_listener_raises (parser : StackTraceParser) (runtime : Runtime) (s : State)
    (error : JSError) (isFatal : Bool) (before after : List ErrorListener)
    (l : ErrorListener) (e : JSError)
    (hls : s.self._errorListeners = before ++ l :: after)
    (hbefore : ∀ l0 ∈ before, (l0 (emitData parser runtime s error isFatal)).raises = none)
    (hl : (l (emitData parser runtime s error isFatal)).raises = some e) :
    (emitError parser runtime s error isFatal).raised = some e ∧
    listenerCalls (emitError parser runtime s error isFatal).events =
      (List.range (before.length + 1)).map
        (fun k => (k, emitData parser runtime s error isFatal)) ∧
    terminalCalls (emitError parser runtime s error isFatal).events = [] ∧
    hasHandledFatalError (emitError parser runtime s error isFatal).state =
      hasHandledFatalError s ∧
    ((isRuntimeReady s = false ∨ ∃ e0, handleJSError runtime error isFatal = Except.error e0) →
      (handleError parser runtime s error isFatal).raised = some e ∧
      listenerCalls (handleError parser runtime s error isFatal).events =
        (List.range (before.length + 1)).map
          (fun k => (k, emitData parser runtime s error isFatal)) ∧
      terminalCalls (handleError parser runtime s error isFatal).events = []) := by
  obtain ⟨hN1, hN2⟩ := notifyListeners_raise before after l e 0
    (emitData parser runtime s error isFatal) false hbefore hl
  rw [← hls] at hN1 hN2
  have hraised : (emitError parser runtime s error isFatal).raised = some e := by
    rw [emitError_raised, hN1]
  have hcalls : listenerCalls (emitError parser runtime s error isFatal).events =
      (List.range (before.length + 1)).map
        (fun k => (k, emitData parser runtime s error isFatal)) := by
    rw [emitError_listenerCalls, hN2]
    simp
  have hterm : terminalCalls (emitError parser runtime s error isFatal).events = [] := by
    rw [emitError_terminal, hraised]
    simp
  refine ⟨hraised, hcalls, hterm, ?_, ?_⟩
  · rw [emitError_latch, hraised]
    simp
  · intro hreach
    cases hr : isRuntimeReady s with
    | false =>
      rw [handleError_not_ready _ _ _ _ _ hr]
      exact ⟨hraised, hcalls, hterm⟩
    | true =>
      rcases hreach with hnot | ⟨e0, herr⟩
      · rw [hr] at hnot
        exact absurd hnot (by decide)
      · have hs := emitError_congr parser runtime s
          (if isFatal then s.setHandledFatalError else s) error isFatal
          (setHandledFatalError_exceptionId s isFatal) (setHandledFatalError_listeners s isFatal)
        rw [handleError_error _ _ _ _ _ e0 hr herr]
        simp only [listenerCalls, terminalCalls]
        rw [hs.1, hs.2]
        exact ⟨hraised, hcalls, hterm⟩

/-- C17, a worked case: of a listener that throws followed by one that does
nothing, only the first is called, and the fatal `emitError` leaves the latch
unset. -/
theorem emitError_listener_raises_witness :
    (emitError sampleParser sampleRuntime (stateWith [raisingListener, noopListener])
      sampleError true).raised = some reportingFailure ∧
    listenerCalls (emitError sampleParser sampleRuntime
      (stateWith [raisingListener, noopListener]) sampleError true).events =
      (List.range 1).map (fun k => (k, emitData sampleParser sampleRuntime
        (stateWith [raisingListener, noopListener]) sampleError true)) ∧
    terminalCalls (emitError sampleParser sampleRuntime
      (stateWith [raisingListener, noopListener]) sampleError true).events = [] ∧
    hasHandledFatalError (emitError sampleParser sampleRuntime
      (stateWith [raisingListener, noopListener]) sampleError true).state = false :=
  have h := emitError_listener_raises sampleParser sampleRuntime
    (stateWith [raisingListener, noopListener]) sampleError true [] [noopListener]
    raisingListener reportingFailure rfl (by intro l0 h0; cases h0) rfl
  ⟨h.1, h.2.1, h.2.2.1, h.2.2.2.1⟩

/-! ## The readiness flag and non-fatal calls -/

theorem setHandledFatalError_ready (s : State) (b : Bool) :
    (if b then s.setHandledFatalError else s).self._isRuntimeReady =
      s.self._isRuntimeReady := by
  cases b <;> rfl

theorem handleError_ready (parser : StackTraceParser) (runtime : Runtime) (s : State)
    (error : JSError) (isFatal : Bool) :
    isRuntimeReady (handleError parser runtime s error isFatal).state = isRuntimeReady s := by
  cases hr : isRuntimeReady s with
  | false =>
    rw [handleError_not_ready _ _ _ _ _ hr]
    unfold isRuntimeReady at hr ⊢
    rw [emitError_ready, hr]
  | true =>
    rcases handleJSError_cases runtime error isFatal with hok | ⟨e, herr⟩
    · rw [handleError_ok _ _ _ _ _ hr hok]
      unfold isRuntimeReady at hr ⊢
      simp only []
      rw [setHandledFatalError_ready, hr]
    · rw [handleError_error _ _ _ _ _ e hr herr]
      unfold isRuntimeReady at hr ⊢
      simp only []
      rw [emitError_ready, setHandledFatalError_ready, hr]

/-- A call other than `setRuntimeReady` keeps the readiness flag. -/
theorem step_ready (parser : StackTraceParser) (s : State) (op : Op)
    (hop : op ≠ Op.setRuntimeReady) :
    isRuntimeReady (step parser s op).state = isRuntimeReady s := by
  cases op with
  | handleError runtime error isFatal => exact handleError_ready _ _ _ _ _
  | emitError runtime error isFatal =>
    simp only [step]
    unfold isRuntimeReady
    exact emitError_ready _ _ _ _ _
  | registerErrorListener l => rfl
  | setRuntimeReady => exact absurd rfl hop
  | notifyOfFatalError => rfl

/-- No call resets the readiness flag. -/
theorem step_ready_mono (parser : StackTraceParser) (s : State) (op : Op)
    (h : isRuntimeReady s = true) : isRuntimeReady (step parser s op).state = true := by
  cases op with
  | setRuntimeReady => rfl
  | handleError runtime error isFatal =>
    rw [step_ready parser s _ (by intro hc; cases hc), h]
  | emitError runtime error isFatal =>
    rw [step_ready parser s _ (by intro hc; cases hc), h]
  | registerErrorListener l => exact h
  | notifyOfFatalError => exact h

theorem run_ready_mono (parser : StackTraceParser) (s : State) (ops : List Op)
    (h : isRuntimeReady s = true) : isRuntimeReady (run parser s ops).1 = true := by
  induction ops generalizing s with
  | nil => exact h
  | cons op ops ih => exact ih (step parser s op).state (step_ready_mono parser s op h)

/-- C18: after `setRuntimeReady`, `isRuntimeReady` is true after every finite
sequence of calls; a call other than `setRuntimeReady` leaves the value of
`isRuntimeReady` as it was, and so does a sequence without `setRuntimeReady`. -/
theorem runtimeReady_one_way (parser : StackTraceParser) (s : State) (ops : List Op) :
    isRuntimeReady (setRuntimeReady s) = true ∧
    isRuntimeReady (run parser (setRuntimeReady s) ops).1 = true ∧
    (∀ op, op ≠ Op.setRuntimeReady →
      isRuntimeReady (step parser s op).state = isRuntimeReady s) ∧
    (Op.setRuntimeReady ∉ ops → isRuntimeReady (run parser s ops).1 = isRuntimeReady s) := by
  refine ⟨rfl, run_ready_mono parser _ ops rfl, fun op hop => step_ready parser s op hop, ?_⟩
  induction ops generalizing s with
  | nil => intro _; rfl
  | cons op ops ih =>
    intro hmem
    have hop : op ≠ Op.setRuntimeReady := by
      intro hc
      exact hmem (by rw [hc]; exact List.mem_cons_self _ _)
    have hrest : Op.setRuntimeReady ∉ ops :=
      fun hc => hmem (List.mem_cons_of_mem _ hc)
    simp only [run]
    rw [ih (step parser s op).state hrest, step_ready parser s op hop]

/-- C18, a worked case: a fresh handler is not ready and stays so over calls
other than `setRuntimeReady`; once set the flag survives them. -/
theorem runtimeReady_one_way_witness :
    isRuntimeReady (run sampleParser (setRuntimeReady State.init)
      [Op.handleError failingRuntime sampleError true,
       Op.registerErrorListener raisingListener,
       Op.emitError sampleRuntime sampleError false,
       Op.notifyOfFatalError]).1 = true ∧
    isRuntimeReady (step sampleParser State.init
      (Op.emitError sampleRuntime sampleError true)).state = isRuntimeReady State.init :=
  ⟨(runtimeReady_one_way sampleParser State.init _).2.1,
   (runtimeReady_one_way sampleParser State.init []).2.2.1 _ (by intro hc; cases hc)⟩

/-- C20: `handleError` and `emitError` with `isFatal = false`, whatever the
pipeline and the listeners do, and `registerErrorListener` and
`setRuntimeReady` leave `hasHandledFatalError` as it was. -/
theorem nonfatal_keeps_latch (parser : StackTraceParser) (runtime : Runtime) (s : State)
    (error : JSError) (errorListener : ErrorListener) :
    hasHandledFatalError (handleError parser runtime s error false).state =
      hasHandledFatalError s ∧
    hasHandledFatalError (emitError parser runtime s error false).state =
      hasHandledFatalError s ∧
    hasHandledFatalError (registerErrorListener s errorListener) = hasHandledFatalError s ∧
    hasHandledFatalError (setRuntimeReady s) = hasHandledFatalError s := by
  have hemit : ∀ t : State, hasHandledFatalError (emitError parser runtime t error false).state =
      hasHandledFatalError t := by
    intro t
    rw [emitError_latch]
    simp
  refine ⟨?_, hemit s, rfl, rfl⟩
  cases hr : isRuntimeReady s with
  | false => rw [handleError_not_ready _ _ _ _ _ hr, hemit]
  | true =>
    rcases handleJSError_cases runtime error false with hok | ⟨e, herr⟩
    · rw [handleError_ok _ _ _ _ _ hr hok]
      rfl
    · rw [handleError_error _ _ _ _ _ e hr herr]
      simp only []
      rw [hemit]
      rfl

/-! ## Properties of objects -/

theorem lookup_replace_self (obj : List (String × Value)) (key : String) (v : Value)
    (h : obj.any (fun p => p.1 == key) = true) :
    (obj.map (fun p => if p.1 == key then (key, v) else p)).lookup key = some v := by
  induction obj with
  | nil => simp at h
  | cons p rest ih =>
    obtain ⟨a, b⟩ := p
    by_cases hak : a = key
    · subst hak
      simp [List.lookup_cons]
    · have hka : (key == a) = false := by simpa using fun hc => hak hc.symm
      have hrest : rest.any (fun p => p.1 == key) = true := by
        simpa [hak] using h
      have ih2 := ih hrest
      simp only [beq_iff_eq] at ih2
      simp [List.lookup_cons, hak, hka, ih2]

theorem lookup_replace_ne (obj : List (String × Value)) (key other : String) (v : Value)
    (hne : other ≠ key) :
    (obj.map (fun p => if p.1 == key then (key, v) else p)).lookup other = obj.lookup other := by
  induction obj with
  | nil => rfl
  | cons p rest ih =>
    obtain ⟨a, b⟩ := p
    simp only [beq_iff_eq] at ih
    by_cases hak : a = key
    · subst hak
      have h1 : (other == a) = false := by simpa using hne
      simp [List.lookup_cons, h1, ih]
    · simp [List.lookup_cons, hak, ih]

theorem lookup_none_of_not_any (obj : List (String × Value)) (key : String)
    (h : obj.any (fun p => p.1 == key) = false) : obj.lookup key = none := by
  induction obj with
  | nil => rfl
  | cons p rest ih =>
    obtain ⟨a, b⟩ := p
    simp only [List.any_cons, Bool.or_eq_false_iff] at h
    have hka : (key == a) = false := by
      have : a ≠ key := by simpa using h.1
      simpa using fun hc => this hc.symm
    simp [List.lookup_cons, hka, ih h.2]

theorem getProperty_setProperty_self (obj : List (String × Value)) (key : String) (v : Value) :
    getProperty (setProperty obj key v) key = v := by
  unfold getProperty setProperty
  by_cases h : obj.any (fun p => p.1 == key) = true
  · rw [if_pos h, lookup_replace_self obj key v h]
  · have h2 : obj.any (fun p => p.1 == key) = false := Bool.eq_false_iff.mpr h
    rw [if_neg h, List.lookup_append, lookup_none_of_not_any obj key h2]
    simp [List.lookup_cons]

theorem getProperty_setProperty_ne (obj : List (String × Value)) (key other : String)
    (v : Value) (hne : other ≠ key) :
    getProperty (setProperty obj key v) other = getProperty obj other := by
  unfold getProperty setProperty
  have h1 : (other == key) = false := by simpa using hne
  by_cases h : obj.any (fun p => p.1 == key) = true
  · rw [if_pos h, lookup_replace_ne obj key other v hne]
  · rw [if_neg h, List.lookup_append]
    simp [List.lookup_cons, h1]

theorem any_replace (obj : List (String × Value)) (key other : String) (v : Value)
    (h : obj.any (fun p => p.1 == key) = true) :
    (obj.map (fun p => if p.1 == key then (key, v) else p)).any (fun p => p.1 == other) =
      (obj.any (fun p => p.1 == other) || key == other) := by
  induction obj with
  | nil => simp at h
  | cons p rest ih =>
    obtain ⟨a, b⟩ := p
    simp only [List.map_cons, List.any_cons]
    by_cases hak : a = key
    · subst hak
      simp only [beq_self_eq_true, if_true]
      by_cases hr : rest.any (fun p => p.1 == a) = true
      · rw [ih hr]
        cases (a == other) <;> cases (rest.any fun p => p.1 == other) <;> rfl
      · have hr2 : rest.any (fun p => p.1 == a) = false := Bool.eq_false_iff.mpr hr
        have hsame : rest.map (fun p => if p.1 == a then (a, v) else p) = rest := by
          have hall : ∀ p ∈ rest, (p.1 == a) = false := by
            intro p hp
            cases hpa : p.1 == a
            · rfl
            · have : rest.any (fun p => p.1 == a) = true := List.any_eq_true.mpr ⟨p, hp, hpa⟩
              rw [this] at hr2
              exact absurd hr2 (by decide)
          conv => rhs; rw [← List.map_id rest]
          apply List.map_congr_left
          intro p hp
          simp [hall p hp]
        rw [hsame]
        cases (a == other) <;> cases (rest.any fun p => p.1 == other) <;> rfl
    · have hbeq : (a == key) = false := by simpa using hak
      have hrest : rest.any (fun p => p.1 == key) = true := by
        simpa [hak] using h
      simp only [hbeq, Bool.false_eq_true, if_false]
      rw [ih hrest, Bool.or_assoc]

theorem hasProperty_setProperty (obj : List (String × Value)) (key other : String)
    (v : Value) :
    hasProperty (setProperty obj key v) other = (hasProperty obj other || key == other) := by
  unfold hasProperty setProperty
  by_cases h : obj.any (fun p => p.1 == key) = true
  · rw [if_pos h, any_replace obj key other v h]
  · rw [if_neg h]
    simp

theorem hasProperty_objectAssign (target props : List (String × Value)) (key : String) :
    hasProperty (objectAssign target props) key =
      (hasProperty target key || hasProperty props key) := by
  induction props generalizing target with
  | nil => simp [objectAssign, hasProperty]
  | cons p rest ih =>
    have := ih (setProperty target p.1 p.2)
    unfold objectAssign at this ⊢
    rw [List.foldl_cons, this, hasProperty_setProperty]
    simp [hasProperty, Bool.or_assoc]

theorem getProperty_objectAssign (target props : List (String × Value)) (key : String)
    (hkeys : (props.map Prod.fst).Nodup) :
    getProperty (objectAssign target props) key =
      if hasProperty props key then getProperty props key else getProperty target key := by
  induction props generalizing target with
  | nil => simp [objectAssign, hasProperty]
  | cons p rest ih =>
    obtain ⟨a, b⟩ := p
    rw [List.map_cons, List.nodup_cons] at hkeys
    have := ih (setProperty target a b) hkeys.2
    unfold objectAssign at this ⊢
    rw [List.foldl_cons, this]
    by_cases hak : a = key
    · subst hak
      have hnot : hasProperty rest a = false := by
        cases hq : hasProperty rest a
        · rfl
        · obtain ⟨q, hq1, hq2⟩ := List.any_eq_true.mp hq
          have : q.1 = a := by simpa using hq2
          exact absurd (List.mem_map.mpr ⟨q, hq1, this⟩) hkeys.1
      have hhas : hasProperty ((a, b) :: rest) a = true := by simp [hasProperty]
      have hget : getProperty ((a, b) :: rest) a = b := by simp [getProperty]
      rw [hnot, hhas, hget, getProperty_setProperty_self]
      simp
    · have hka : (key == a) = false := by simpa using fun hc => hak hc.symm
      have hbeq : (a == key) = false := by simpa using hak
      have hhas : hasProperty ((a, b) :: rest) key = hasProperty rest key := by
        simp [hasProperty, hbeq]
      have hget : getProperty ((a, b) :: rest) key = getProperty rest key := by
        simp [getProperty, List.lookup_cons, hka]
      rw [hhas, hget, getProperty_setProperty_ne _ _ _ _ (fun hc => hak hc.symm)]

theorem getProperty_of_not_hasProperty (obj : List (String × Value)) (key : String)
    (h : hasProperty obj key = false) : getProperty obj key = Value.undefined := by
  unfold getProperty
  rw [lookup_none_of_not_any obj key h]

theorem getProperty_copy (props : List (String × Value)) (key : String)
    (hkeys : (props.map Prod.fst).Nodup) :
    getProperty (objectAssign [] props) key = getProperty props key := by
  rw [getProperty_objectAssign [] props key hkeys]
  cases h : hasProperty props key
  · rw [getProperty_of_not_hasProperty props key h]
    rfl
  · rfl

/-! ## The `extraData` of the `ParsedError` -/

/-- The `extraData` object is the object before the cause with the three
stack properties of the cause set on it when the cause is an object, and the
object before the cause otherwise. -/
theorem buildExtraData_eq (error : JSError) :
    buildExtraData error =
      match getProperty error.value "cause" with
      | .object causeObj =>
        setProperty
          (setProperty
            (setProperty (extraDataBeforeCause error) "stackSymbols"
              (getProperty causeObj "stackSymbols"))
            "stackReturnAddresses" (getProperty causeObj "stackReturnAddresses"))
          "stackElements" (getProperty causeObj "stackElements")
      | _ => extraDataBeforeCause error := by
  rfl

theorem buildExtraData_cause (error : JSError) (causeObj : List (String × Value))
    (h : getProperty error.value "cause" = Value.object causeObj) :
    buildExtraData error =
      setProperty
        (setProperty
          (setProperty (extraDataBeforeCause error) "stackSymbols"
            (getProperty causeObj "stackSymbols"))
          "stackReturnAddresses" (getProperty causeObj "stackReturnAddresses"))
        "stackElements" (getProperty causeObj "stackElements") := by
  rw [buildExtraData_eq, h]

theorem buildExtraData_no_cause (error : JSError)
    (h : (getProperty error.value "cause").isObject = false) :
    buildExtraData error = extraDataBeforeCause error := by
  rw [buildExtraData_eq]
  cases hc : getProperty error.value "cause" with
  | object causeObj =>
    rw [hc] at h
    exact absurd h (by simp [Value.isObject])
  | undefined => rfl
  | null => rfl
  | bool b => rfl
  | number text => rfl
  | string text => rfl

/-- C13: when the cause of the error is an object, the `extraData` that
`emitError` builds has the keys `stackSymbols`, `stackReturnAddresses` and
`stackElements`, each bound to the value the cause has for it (undefined when
the cause lacks it), whatever the reserved extra-data property held for them;
when the cause is not an object, `emitError` sets none of the three, and
`extraData` has such a key exactly when the copied extra-data property had
it. -/
theorem extraData_cause (parser : StackTraceParser) (runtime : Runtime) (error : JSError)
    (isFatal : Bool) (id : Int) :
    (∀ causeObj, getProperty error.value "cause" = Value.object causeObj →
      ∀ key, key = "stackSymbols" ∨ key = "stackReturnAddresses" ∨ key = "stackElements" →
        hasProperty (buildParsedError parser runtime error isFatal id).extraData key = true ∧
        getProperty (buildParsedError parser runtime error isFatal id).extraData key =
          getProperty causeObj key ∧
        (hasProperty causeObj key = false →
          getProperty (buildParsedError parser runtime error isFatal id).extraData key =
            Value.undefined)) ∧
    ((getProperty error.value "cause").isObject = false →
      (buildParsedError parser runtime error isFatal id).extraData =
        extraDataBeforeCause error ∧
      ∀ key, key = "stackSymbols" ∨ key = "stackReturnAddresses" ∨ key = "stackElements" →
        (hasProperty (buildParsedError parser runtime error isFatal id).extraData key = true ↔
          ∃ props, getProperty error.value "RN$ErrorExtraDataKey" = Value.object props ∧
            hasProperty props key = true)) := by
  have hed : (buildParsedError parser runtime error isFatal id).extraData =
      buildExtraData error := rfl
  rw [hed]
  constructor
  · intro causeObj hcause key hkey
    rw [buildExtraData_cause error causeObj hcause]
    have hmain : hasProperty (setProperty (setProperty (setProperty (extraDataBeforeCause error)
          "stackSymbols" (getProperty causeObj "stackSymbols"))
          "stackReturnAddresses" (getProperty causeObj "stackReturnAddresses"))
          "stackElements" (getProperty causeObj "stackElements")) key = true ∧
        getProperty (setProperty (setProperty (setProperty (extraDataBeforeCause error)
          "stackSymbols" (getProperty causeObj "stackSymbols"))
          "stackReturnAddresses" (getProperty causeObj "stackReturnAddresses"))
          "stackElements" (getProperty causeObj "stackElements")) key =
          getProperty causeObj key := by
      rcases hkey with h | h | h
      · subst h
        constructor
        · simp [hasProperty_setProperty]
        · rw [getProperty_setProperty_ne _ _ _ _ (by decide),
            getProperty_setProperty_ne _ _ _ _ (by decide), getProperty_setProperty_self]
      · subst h
        constructor
        · simp [hasProperty_setProperty]
        · rw [getProperty_setProperty_ne _ _ _ _ (by decide), getProperty_setProperty_self]
      · subst h
        constructor
        · simp [hasProperty_setProperty]
        · rw [getProperty_setProperty_self]
    refine ⟨hmain.1, hmain.2, ?_⟩
    intro hlacks
    rw [hmain.2, getProperty_of_not_hasProperty causeObj key hlacks]
  · intro hcause
    rw [buildExtraData_no_cause error hcause]
    refine ⟨rfl, ?_⟩
    intro key hkey
    have h1 : ("rawStack" == key) = false := by
      rcases hkey with h | h | h <;> subst h <;> decide
    have h2 : ("jsEngine" == key) = false := by
      rcases hkey with h | h | h <;> subst h <;> decide
    unfold extraDataBeforeCause copiedExtraData
    rw [hasProperty_setProperty, hasProperty_setProperty, h1, h2]
    simp only [Bool.or_false]
    cases hx : getProperty error.value "RN$ErrorExtraDataKey" with
    | object props =>
      simp only []
      rw [hasProperty_objectAssign]
      constructor
      · intro h
        exact ⟨props, rfl, by simpa [hasProperty] using h⟩
      · rintro ⟨q, hq, hq2⟩
        cases hq
        simpa [hasProperty] using hq2
    | undefined => simp [hasProperty]
    | null => simp [hasProperty]
    | bool b => simp [hasProperty]
    | number text => simp [hasProperty]
    | string text => simp [hasProperty]

/-- C13, the worked cases: a cause with `stackSymbols` only overrides the
`stackElements` that the extra-data property supplied with undefined; without
a cause the supplied `stackElements` is kept and `stackSymbols` is not set. -/
theorem extraData_cause_witness :
    getProperty (buildParsedError sampleParser sampleRuntime causeError true 0).extraData
      "stackSymbols" = Value.string "symbols" ∧
    getProperty (buildParsedError sampleParser sampleRuntime causeError true 0).extraData
      "stackElements" = Value.undefined ∧
    hasProperty (buildParsedError sampleParser sampleRuntime causeError true 0).extraData
      "stackElements" = true ∧
    (buildParsedError sampleParser sampleRuntime plainError true 0).extraData =
      extraDataBeforeCause plainError :=
  ⟨((extraData_cause sampleParser sampleRuntime causeError true 0).1
      [("stackSymbols", Value.string "symbols")] rfl "stackSymbols" (Or.inl rfl)).2.1,
   ((extraData_cause sampleParser sampleRuntime causeError true 0).1
      [("stackSymbols", Value.string "symbols")] rfl "stackElements"
      (Or.inr (Or.inr rfl))).2.2 rfl,
   ((extraData_cause sampleParser sampleRuntime causeError true 0).1
      [("stackSymbols", Value.string "symbols")] rfl "stackElements"
      (Or.inr (Or.inr rfl))).1,
   ((extraData_cause sampleParser sampleRuntime plainError true 0).2 rfl).1⟩

/-- C15: in the `extraData` that `emitError` builds, `jsEngine` is bound to
the `jsEngine` property of the exception and `rawStack` to its stack text,
whatever the reserved extra-data property held for them; every key other than
these two and the three stack keys has the value it was copied with, which is
the value the extra-data property has for it. -/
theorem extraData_engine_and_stack (parser : StackTraceParser) (runtime : Runtime)
    (error : JSError) (isFatal : Bool) (id : Int) :
    getProperty (buildParsedError parser runtime error isFatal id).extraData "jsEngine" =
      getProperty error.value "jsEngine" ∧
    getProperty (buildParsedError parser runtime error isFatal id).extraData "rawStack" =
      Value.string error.stack ∧
    (∀ key, key ≠ "jsEngine" → key ≠ "rawStack" → key ≠ "stackSymbols" →
      key ≠ "stackReturnAddresses" → key ≠ "stackElements" →
      getProperty (buildParsedError parser runtime error isFatal id).extraData key =
        getProperty (copiedExtraData error) key ∧
      hasProperty (buildParsedError parser runtime error isFatal id).extraData key =
        hasProperty (copiedExtraData error) key) ∧
    (∀ props key, getProperty error.value "RN$ErrorExtraDataKey" = Value.object props →
      (props.map Prod.fst).Nodup →
      key ≠ "jsEngine" → key ≠ "rawStack" → key ≠ "stackSymbols" →
      key ≠ "stackReturnAddresses" → key ≠ "stackElements" →
      getProperty (buildParsedError parser runtime error isFatal id).extraData key =
        getProperty props key) := by
  have hed : (buildParsedError parser runtime error isFatal id).extraData =
      buildExtraData error := rfl
  rw [hed]
  have hbase : ∀ key, key ≠ "stackSymbols" → key ≠ "stackReturnAddresses" →
      key ≠ "stackElements" →
      getProperty (buildExtraData error) key = getProperty (extraDataBeforeCause error) key ∧
      hasProperty (buildExtraData error) key = hasProperty (extraDataBeforeCause error) key := by
    intro key h1 h2 h3
    have b1 : ("stackSymbols" == key) = false := by simpa using fun hc => h1 hc.symm
    have b2 : ("stackReturnAddresses" == key) = false := by simpa using fun hc => h2 hc.symm
    have b3 : ("stackElements" == key) = false := by simpa using fun hc => h3 hc.symm
    cases hc : getProperty error.value "cause" with
    | object causeObj =>
      rw [buildExtraData_cause error causeObj hc]
      constructor
      · rw [getProperty_setProperty_ne _ _ _ _ h3, getProperty_setProperty_ne _ _ _ _ h2,
          getProperty_setProperty_ne _ _ _ _ h1]
      · rw [hasProperty_setProperty, hasProperty_setProperty, hasProperty_setProperty, b1, b2,
          b3]
        simp
    | undefined => rw [buildExtraData_no_cause error (by rw [hc]; rfl)]; exact ⟨rfl, rfl⟩
    | null => rw [buildExtraData_no_cause error (by rw [hc]; rfl)]; exact ⟨rfl, rfl⟩
    | bool b => rw [buildExtraData_no_cause error (by rw [hc]; rfl)]; exact ⟨rfl, rfl⟩
    | number text => rw [buildExtraData_no_cause error (by rw [hc]; rfl)]; exact ⟨rfl, rfl⟩
    | string text => rw [buildExtraData_no_cause error (by rw [hc]; rfl)]; exact ⟨rfl, rfl⟩
  have hcopied : ∀ key, key ≠ "jsEngine" → key ≠ "rawStack" → key ≠ "stackSymbols" →
      key ≠ "stackReturnAddresses" → key ≠ "stackElements" →
      getProperty (buildExtraData error) key = getProperty (copiedExtraData error) key ∧
      hasProperty (buildExtraData error) key = hasProperty (copiedExtraData error) key := by
    intro key h1 h2 h3 h4 h5
    have b1 : ("jsEngine" == key) = false := by simpa using fun hc => h1 hc.symm
    have b2 : ("rawStack" == key) = false := by simpa using fun hc => h2 hc.symm
    rw [(hbase key h3 h4 h5).1, (hbase key h3 h4 h5).2]
    unfold extraDataBeforeCause
    constructor
    · rw [getProperty_setProperty_ne _ _ _ _ h2, getProperty_setProperty_ne _ _ _ _ h1]
    · rw [hasProperty_setProperty, hasProperty_setProperty, b1, b2]
      simp
  refine ⟨?_, ?_, hcopied, ?_⟩
  · rw [(hbase "jsEngine" (by decide) (by decide) (by decide)).1]
    unfold extraDataBeforeCause
    rw [getProperty_setProperty_ne _ _ _ _ (by decide), getProperty_setProperty_self]
  · rw [(hbase "rawStack" (by decide) (by decide) (by decide)).1]
    unfold extraDataBeforeCause
    rw [getProperty_setProperty_self]
  · intro props key hprops hkeys h1 h2 h3 h4 h5
    rw [(hcopied key h1 h2 h3 h4 h5).1]
    unfold copiedExtraData
    rw [hprops]
    exact getProperty_copy props key hkeys

/-- C15, the worked case: the extra-data property supplies `jsEngine`,
`rawStack` and `detail`; the first two are overwritten and `detail` is
kept. -/
theorem extraData_engine_and_stack_witness :
    getProperty (buildParsedError sampleParser sampleRuntime causeError true 0).extraData
      "jsEngine" = Value.string "hermes" ∧
    getProperty (buildParsedError sampleParser sampleRuntime causeError true 0).extraData
      "rawStack" = Value.string "at f (a.js:1:1)" ∧
    getProperty (buildParsedError sampleParser sampleRuntime causeError true 0).extraData
      "detail" = Value.number "7" :=
  ⟨(extraData_engine_and_stack sampleParser sampleRuntime causeError true 0).1,
   (extraData_engine_and_stack sampleParser sampleRuntime causeError true 0).2.1,
   (extraData_engine_and_stack sampleParser sampleRuntime causeError true 0).2.2.2
     [("stackElements", Value.string "old"), ("jsEngine", Value.string "other"),
      ("rawStack", Value.string "other stack"), ("detail", Value.number "7")]
     "detail" rfl (by decide) (by decide) (by decide) (by decide) (by decide) (by decide)⟩

/-! ## The message and the component stack of the `ParsedError` -/

theorem starts_with_append (p rest : String) : starts_with (p ++ rest) p = true :=
  (starts_with_iff (p ++ rest) p).mpr ⟨rest, rfl⟩

/-- C16: the `componentStack` of the `ParsedError` that `emitError` builds is
present exactly when the `componentStack` property of the exception is a
string, and is then that string; a property that is neither null nor
undefined nor a string is appended, as text, on a new line of the message
while the field is absent. -/
theorem componentStack_spec (parser : StackTraceParser) (runtime : Runtime) (error : JSError)
    (isFatal : Bool) (id : Int) :
    (∀ text, (buildParsedError parser runtime error isFatal id).componentStack = some text ↔
      getProperty error.value "componentStack" = Value.string text) ∧
    (buildParsedError parser runtime error isFatal id).componentStack.isSome =
      (getProperty error.value "componentStack").isString ∧
    (isLooselyNull (getProperty error.value "componentStack") = false →
      (getProperty error.value "componentStack").isString = false →
      (buildParsedError parser runtime error isFatal id).componentStack = none ∧
      (buildParsedError parser runtime error isFatal id).message =
        "EarlyJsError: " ++
          appendJsEngine
            (applyName (nameOf (getProperty error.value "name"))
              (error.message ++
                ("\n" ++ stringifyToCpp (getProperty error.value "componentStack"))))
            (getProperty error.value "jsEngine")) := by
  have hcs : (buildParsedError parser runtime error isFatal id).componentStack =
      match getProperty error.value "componentStack" with
      | .string s => some s
      | _ => none := rfl
  have hmsg : (buildParsedError parser runtime error isFatal id).message =
      "EarlyJsError: " ++
        appendJsEngine
          (applyName (nameOf (getProperty error.value "name"))
            (appendComponentStack error.message (getProperty error.value "componentStack")))
          (getProperty error.value "jsEngine") := rfl
  rw [hcs, hmsg]
  refine ⟨?_, ?_, ?_⟩
  · intro text
    cases getProperty error.value "componentStack" <;> simp
  · cases getProperty error.value "componentStack" <;> rfl
  · intro hnull hstr
    constructor
    · cases hv : getProperty error.value "componentStack" with
      | string text =>
        rw [hv] at hstr
        exact absurd hstr (by simp [Value.isString])
      | undefined => rfl
      | null => rfl
      | bool b => rfl
      | number text => rfl
      | object props => rfl
    · unfold appendComponentStack
      rw [hnull]
      rfl

/-- C16, the worked cases: a string component stack is the field; a number
is appended to the message and the field is absent. -/
theorem componentStack_spec_witness :
    (buildParsedError sampleParser sampleRuntime stringStackError false 0).componentStack =
      some "in App" ∧
    (buildParsedError sampleParser sampleRuntime numberStackError false 0).componentStack =
      none ∧
    (buildParsedError sampleParser sampleRuntime numberStackError false 0).message =
      "EarlyJsError: boom\n42" :=
  ⟨((componentStack_spec sampleParser sampleRuntime stringStackError false 0).1 "in App").mpr
      rfl,
   ((componentStack_spec sampleParser sampleRuntime numberStackError false 0).2.2 rfl rfl).1,
   ((componentStack_spec sampleParser sampleRuntime numberStackError false 0).2.2 rfl rfl).2⟩

/-- C19: the name step of `emitError` is idempotent: applied to its own
result it changes nothing, for a present name `n` and for the name read from
any property value. -/
theorem applyName_idempotent (n m : String) (nameValue : Value) :
    applyName (some n) (applyName (some n) m) = applyName (some n) m ∧
    applyName (nameOf nameValue) (applyName (nameOf nameValue) m) =
      applyName (nameOf nameValue) m := by
  have hsome : ∀ k : String,
      applyName (some k) (applyName (some k) m) = applyName (some k) m := by
    intro k
    cases h : starts_with m (k ++ ": ")
    · have h1 : applyName (some k) m = k ++ ": " ++ m := by simp [applyName, h]
      rw [h1]
      simp [applyName, starts_with_append]
    · have h1 : applyName (some k) m = m := by simp [applyName, h]
      rw [h1, h1]
  refine ⟨hsome n, ?_⟩
  cases hname : nameOf nameValue with
  | none => rfl
  | some k => exact hsome k

end facebook.react
